import Mathlib

set_option autoImplicit false

/-!
# Verification of the cross-shard migration workflow engine (wrangler/materializer)

A shallow embedding of the Go source of the materializer / MoveTables /
CreateLookupVindex / ExternalizeVindex engine, together with theorems settling
the frozen claims about it.

Conventions used throughout:
* Go strings are Lean `String`s; `[]byte` data is `List Nat` (byte values).
* Go maps are association lists (`List (String × α)`); a lookup of a missing
  key yields the zero value, as in Go.
* Fallible Go code (`error` returns, panics) is `Except String α`.
* SQL statements are carried as ASTs (`Select`, `Expr`) because the SQL
  parser/printer is an external opaque capability of the repository; parsing a
  source-expression string is modelled by pattern-matching on the
  already-parsed value (`SourceExpression`).
* Concurrent per-shard fan-outs (`forAllTargets`, `forAllSources`) are
  modelled as sequential folds in shard order; the engine aggregates all
  errors and never undoes completed side effects, which the fold preserves.
-/

deriving instance DecidableEq for Except

namespace Vitess

/-! ## Small Go string/byte utilities -/

/-- Does `pat` occur as a contiguous subsequence of `s`? -/
def containsSeq (pat : List Char) : List Char → Bool
  | [] => pat.isEmpty
  | c :: cs => pat.isPrefixOf (c :: cs) || containsSeq pat cs

/-- Go `strings.Contains s sub`. -/
def goContains (s sub : String) : Bool :=
  containsSeq sub.toList s.toList

/-- Go `strings.Replace s old new 1` on char lists (replace first occurrence). -/
def replaceFirstL (pat rep : List Char) : List Char → List Char
  | [] => []
  | c :: cs =>
    if pat.isPrefixOf (c :: cs) then rep ++ (c :: cs).drop pat.length
    else c :: replaceFirstL pat rep cs

/-- Go `strings.Replace s old new 1`. -/
def goReplaceFirst (s pat rep : String) : String :=
  ⟨replaceFirstL pat.toList rep.toList s.toList⟩

/-- ASCII lower-casing of one character. -/
def charToLower (c : Char) : Char :=
  if 65 ≤ c.toNat ∧ c.toNat ≤ 90 then Char.ofNat (c.toNat + 32) else c

/-- Go `strings.EqualFold` (ASCII case-insensitive equality; the identifiers
compared in this engine are ASCII). -/
def goEqualFold (a b : String) : Bool :=
  a.data.map charToLower == b.data.map charToLower

/-- Association-list lookup returning Go's zero value `""` for a missing key,
as a Go `map[string]string` access does. -/
def paramsGet (ps : List (String × String)) (k : String) : String :=
  ((ps.find? (fun p => p.1 == k)).map (fun p => p.2)).getD ""

/-- Set a key in an association list (overwrite if present, else append). -/
def assocSet {α : Type} (m : List (String × α)) (k : String) (v : α) :
    List (String × α) :=
  if m.any (fun p => p.1 == k) then
    m.map (fun p => if p.1 == k then (k, v) else p)
  else m ++ [(k, v)]

/-- Association-list lookup returning `Option`. -/
def assocGet {α : Type} (m : List (String × α)) (k : String) : Option α :=
  (m.find? (fun p => p.1 == k)).map (fun p => p.2)

/-! ## Key ranges

The `key` package of the repository is not part of the shown source; its
behaviour is modelled from the spec.  A shard owns a contiguous key range
`[start, end)` of byte strings, the empty `start` meaning the minimum and the
empty `end` meaning "past the maximum". -/

/-- Lexicographic `<` on byte strings (Go `bytes.Compare a b < 0`). -/
def bytesLt : List Nat → List Nat → Bool
  | [], [] => false
  | [], _ :: _ => true
  | _ :: _, [] => false
  | a :: as_, b :: bs => a < b || (a == b && bytesLt as_ bs)

/-- A shard key range `[start, end)`; empty `endKey` means unbounded above. -/
structure KeyRange where
  startKey : List Nat
  endKey : List Nat
deriving DecidableEq

/-- Modelled from the spec: `key.KeyRangesIntersect` — two `[low, high)` key
ranges intersect iff each range's low bound is below the other's high bound
(an empty high bound meaning +∞). -/
def keyRangesIntersect (a b : KeyRange) : Bool :=
  (a.endKey.isEmpty || bytesLt b.startKey a.endKey) &&
  (b.endKey.isEmpty || bytesLt a.startKey b.endKey)

/-! ## MigrationID (`getMigrationID`, source lines 1251–1261)

`hash/fnv`'s `New64` is the 64-bit FNV-1 hash; `hasher.Write` consumes the
UTF-8 bytes of each string.  `sort.Strings` sorts ascending; it is modelled by
`List.insertionSort` with the lexicographic order on `String` (UTF-8 encoding
is order-preserving, so byte-wise and codepoint-wise sorts agree). -/

/-- UTF-8 encoding of one character (the bytes Go's `[]byte(str)` holds). -/
def charUTF8 (c : Char) : List Nat :=
  let n := c.toNat
  if n < 0x80 then [n]
  else if n < 0x800 then
    [0xC0 ||| (n >>> 6), 0x80 ||| (n &&& 0x3F)]
  else if n < 0x10000 then
    [0xE0 ||| (n >>> 12), 0x80 ||| ((n >>> 6) &&& 0x3F), 0x80 ||| (n &&& 0x3F)]
  else
    [0xF0 ||| (n >>> 18), 0x80 ||| ((n >>> 12) &&& 0x3F),
     0x80 ||| ((n >>> 6) &&& 0x3F), 0x80 ||| (n &&& 0x3F)]

/-- UTF-8 bytes of a string. -/
def strBytes (s : String) : List Nat :=
  s.data.flatMap charUTF8

/-- 64-bit FNV-1 offset basis. -/
def fnvOffset : Nat := 14695981039346656037

/-- 64-bit FNV-1 prime. -/
def fnvPrime : Nat := 1099511628211

/-- One FNV-1 step: multiply by the prime (mod 2^64), then xor the byte. -/
def fnvStep (h b : Nat) : Nat :=
  (h * fnvPrime % 2 ^ 64) ^^^ b

/-- 64-bit FNV-1 hash of a byte stream. -/
def fnv64 (bytes : List Nat) : Nat :=
  bytes.foldl fnvStep fnvOffset

/-- Lexicographic `≤` on char lists, by codepoint.  For well-formed UTF-8 this
agrees with Go's byte-wise string comparison, since UTF-8 is order-preserving. -/
def charListLe : List Char → List Char → Bool
  | [], _ => true
  | _ :: _, [] => false
  | a :: as_, b :: bs => a < b || (a == b && charListLe as_ bs)

/-- Bool-valued string `≤` used by the model of `sort.Strings`. -/
def strLeB (a b : String) : Bool :=
  charListLe a.data b.data

/-- The sort order as a decidable relation. -/
def strLe (a b : String) : Prop := strLeB a b = true

instance : DecidableRel strLe := fun a b => by unfold strLe; infer_instance

/-- Go `sort.Strings`. -/
def sortStrings (l : List String) : List String :=
  List.insertionSort strLe l

theorem charListLe_total : ∀ a b, charListLe a b = true ∨ charListLe b a = true
  | [], _ => Or.inl rfl
  | _ :: _, [] => Or.inr rfl
  | a :: as_, b :: bs => by
    rcases lt_trichotomy a b with h | h | h
    · left; simp [charListLe, h]
    · subst h
      rcases charListLe_total as_ bs with h2 | h2
      · left; simp [charListLe, h2]
      · right; simp [charListLe, h2]
    · right; simp [charListLe, h]

theorem charListLe_trans : ∀ a b c, charListLe a b = true → charListLe b c = true →
    charListLe a c = true
  | [], _, _ => fun _ _ => rfl
  | _ :: _, [], _ => fun h _ => by simp [charListLe] at h
  | _ :: _, _ :: _, [] => fun _ h => by simp [charListLe] at h
  | a :: as_, b :: bs, c :: cs => fun h1 h2 => by
    simp only [charListLe, Bool.or_eq_true, Bool.and_eq_true, decide_eq_true_eq,
      beq_iff_eq] at h1 h2 ⊢
    rcases h1 with h1 | ⟨h1e, h1r⟩
    · rcases h2 with h2 | ⟨h2e, h2r⟩
      · exact Or.inl (lt_trans h1 h2)
      · exact Or.inl (h2e ▸ h1)
    · rcases h2 with h2 | ⟨h2e, h2r⟩
      · exact Or.inl (h1e ▸ h2)
      · exact Or.inr ⟨h1e.trans h2e, charListLe_trans as_ bs cs h1r h2r⟩

theorem charListLe_antisymm : ∀ a b, charListLe a b = true → charListLe b a = true → a = b
  | [], [] => fun _ _ => rfl
  | [], _ :: _ => fun _ h => by simp [charListLe] at h
  | _ :: _, [] => fun h _ => by simp [charListLe] at h
  | a :: as_, b :: bs => fun h1 h2 => by
    simp only [charListLe, Bool.or_eq_true, Bool.and_eq_true, decide_eq_true_eq,
      beq_iff_eq] at h1 h2
    rcases h1 with h1 | ⟨h1e, h1r⟩
    · rcases h2 with h2 | ⟨h2e, h2r⟩
      · exact absurd h2 (lt_asymm h1)
      · exact absurd h1 (h2e ▸ lt_irrefl b)
    · rcases h2 with h2 | ⟨h2e, h2r⟩
      · exact absurd h2 (h1e ▸ lt_irrefl a)
      · exact by rw [h1e, charListLe_antisymm as_ bs h1r h2r]

instance : IsTotal String strLe :=
  ⟨fun a b => charListLe_total a.data b.data⟩

instance : IsTrans String strLe :=
  ⟨fun a b c => charListLe_trans a.data b.data c.data⟩

instance : IsAntisymm String strLe :=
  ⟨fun a b h1 h2 => by
    have := charListLe_antisymm a.data b.data h1 h2
    cases a; cases b; exact congrArg String.mk this⟩

/-- `getMigrationID` (source lines 1251–1261): sort the `shard:streamID`
strings, hash the target keyspace followed by each string, and drop the
highest bit of the 64-bit hash (`& math.MaxInt64`).  The Go function also
returns an always-`nil` error, elided here; the resulting `int64` is
non-negative, so it is returned as a `Nat`. -/
def getMigrationID (targetKeyspace : String) (shardTablets : List String) : Nat :=
  let sorted := sortStrings shardTablets
  let h := fnv64 (strBytes targetKeyspace ++ (sorted.map strBytes).flatten)
  h &&& (2 ^ 63 - 1)

/-! ## SQL ASTs

The SQL parser/printer is an external opaque capability of the repository
(`sqlparser`): the engine only distinguishes select statements, their select
lists, WHERE clauses and GROUP BY lists.  Expressions are modelled as a small
AST; a parsed `*sqlparser.Select` is a `Select`.  A table setting's
source-expression string is carried in parsed form (`SourceExpression`), with
constructors for text that fails to parse or parses to a non-select. -/

/-- SQL expressions.  `col` is a `*ColName` (qualifiers are not used by this
engine), `lit` a string literal, `func` a `*FuncExpr` (the code wraps each
argument in an `AliasedExpr` with an empty alias when building a call, which
carries no information and is elided), `andE` an `*AndExpr`; `otherE` stands
for any other expression form, which this engine treats opaquely. -/
inductive Expr where
  | col (name : String)
  | lit (s : String)
  | func (fname : String) (args : List Expr)
  | andE (l r : Expr)
  | otherE (tag : String)

mutual

/-- Boolean structural equality on `Expr` (deriving does not handle the
nested `List Expr`). -/
def exprBEq : Expr → Expr → Bool
  | .col a, .col b => a == b
  | .lit a, .lit b => a == b
  | .func f as_, .func g bs => f == g && exprListBEq as_ bs
  | .andE l r, .andE l' r' => exprBEq l l' && exprBEq r r'
  | .otherE a, .otherE b => a == b
  | _, _ => false

/-- Boolean structural equality on `List Expr`. -/
def exprListBEq : List Expr → List Expr → Bool
  | [], [] => true
  | a :: as_, b :: bs => exprBEq a b && exprListBEq as_ bs
  | _, _ => false

end

mutual

theorem exprBEq_iff : ∀ a b : Expr, exprBEq a b = true ↔ a = b
  | .col a, b => by cases b <;> simp [exprBEq]
  | .lit a, b => by cases b <;> simp [exprBEq]
  | .otherE a, b => by cases b <;> simp [exprBEq]
  | .andE l r, b => by
    cases b <;> simp [exprBEq]
    case andE l' r' => rw [← exprBEq_iff l l', ← exprBEq_iff r r']
  | .func f as_, b => by
    cases b <;> simp [exprBEq]
    case func g bs => rw [← exprListBEq_iff as_ bs]; exact fun _ => Iff.rfl

theorem exprListBEq_iff : ∀ as_ bs : List Expr, exprListBEq as_ bs = true ↔ as_ = bs
  | [], bs => by cases bs <;> simp [exprListBEq]
  | a :: as_, bs => by
    cases bs <;> simp [exprListBEq]
    case cons b bs2 => rw [← exprBEq_iff a b, ← exprListBEq_iff as_ bs2]

end

instance : DecidableEq Expr := fun a b => decidable_of_iff _ (exprBEq_iff a b)

/-- One entry of a select list: `*StarExpr`, `*AliasedExpr` (an empty `alias`
means no `AS` clause), or any other select-expression form (e.g. `Nextval`). -/
inductive SelectExpr where
  | star
  | aliased (e : Expr) (asName : String)
  | otherSel (tag : String)
deriving DecidableEq

/-- A parsed select statement, to the extent this engine looks at it. -/
structure Select where
  selExprs : List SelectExpr
  fromTable : String
  whereE : Option Expr
  groupBy : List Expr
deriving DecidableEq

/-- A table setting's source expression, in parsed form. -/
inductive SourceExpression where
  | empty
  | selectStmt (s : Select)
  | otherStmt (raw : String)
  | invalid (raw : String)
deriving DecidableEq

mutual

/-- Number of `in_keyrange` calls in an expression that reference the vindex
named `vname` (i.e. carry the string literal `vname` among their arguments). -/
def countIKRExpr (vname : String) : Expr → Nat
  | .col _ => 0
  | .lit _ => 0
  | .andE l r => countIKRExpr vname l + countIKRExpr vname r
  | .otherE _ => 0
  | .func f args =>
      (if f = "in_keyrange" ∧ Expr.lit vname ∈ args then 1 else 0) +
      countIKRList vname args

/-- `countIKRExpr` summed over a list of expressions. -/
def countIKRList (vname : String) : List Expr → Nat
  | [] => 0
  | e :: es => countIKRExpr vname e + countIKRList vname es

end

/-- `countIKRExpr` over one select-list entry. -/
def countIKRSelectExpr (vname : String) : SelectExpr → Nat
  | .star => 0
  | .otherSel _ => 0
  | .aliased e _ => countIKRExpr vname e

/-- Number of `in_keyrange` calls referencing vindex `vname` anywhere in a
select statement (select list, WHERE clause, GROUP BY list). -/
def countIKRSelect (vname : String) (s : Select) : Nat :=
  (s.selExprs.map (countIKRSelectExpr vname)).sum +
  (match s.whereE with | none => 0 | some w => countIKRExpr vname w) +
  countIKRList vname s.groupBy

/-! ## VSchema documents -/

/-- A column-vindex binding of a table (`*vschemapb.ColumnVindex`): the vindex
name and either one `column` or an ordered `columns` list. -/
structure ColumnVindexSpec where
  name : String
  column : String
  columns : List String
deriving DecidableEq

/-- A table entry of a VSchema (`*vschemapb.Table`).  `autoIncrement` models
the optional auto-increment binding opaquely (`none` = absent). -/
structure TableSpec where
  typ : String
  columnVindexes : List ColumnVindexSpec
  autoIncrement : Option String
deriving DecidableEq

instance : Inhabited TableSpec := ⟨⟨"", [], none⟩⟩

/-- A vindex definition (`*vschemapb.Vindex`). -/
structure VindexSpec where
  typ : String
  owner : String
  params : List (String × String)
deriving DecidableEq

/-- A keyspace's VSchema document (`*vschemapb.Keyspace`). -/
structure VSchema where
  sharded : Bool
  tables : List (String × TableSpec)
  vindexes : List (String × VindexSpec)
deriving DecidableEq

/-- The resolved primary column-vindex of a table: vindex name plus the
concrete column list. -/
structure ColVindexRes where
  name : String
  columns : List String
deriving DecidableEq

/-- Modelled from the spec: `vindexes.FindBestColVindex` (the vindexes package
is outside the shown source) resolves the table's primary column-vindex.  The
primary is the table's first column-vindex binding; its column list is the
multi-column form when given, else the single column.  A table without
bindings has no primary vindex, which is an error. -/
def findBestColVindex (t : TableSpec) : Except String ColVindexRes :=
  match t.columnVindexes with
  | [] => .error "table has no column vindexes"
  | cv :: _ => .ok ⟨cv.name, if cv.columns.isEmpty then [cv.column] else cv.columns⟩

/-! ## Filter rule generation (`generateInserts` loop body and
`matchColInSelect`, source lines 1549–1673) -/

/-- One replication filter rule (`*binlogdatapb.Rule`): the table to match and
an optional filter query.  `none` models a passthrough rule with no filter;
the real record stores the filter as SQL text, carried here in parsed form
(printing is the opaque inverse of parsing). -/
structure Rule where
  matchTable : String
  filter : Option Select
deriving DecidableEq

/-- The key-range placeholder literal substituted per target shard at insert
time (Go text/template syntax around the name `keyrange`). -/
def keyrangePlaceholder : String := "\x7b\x7b.keyrange\x7d\x7d"

/-- The alias an `*AliasedExpr` matches under (source lines 1652–1660): its
explicit alias, or — when it has none — its column name if it is a bare
column reference, else nothing (`continue`). -/
def aliasMatchName (ex : Expr) (asName : String) : Option String :=
  if asName == "" then
    match ex with
    | .col c => some c
    | _ => none
  else some asName

/-- The column extraction of a matched select entry (source lines 1662–1666):
a bare column reference is returned; a composite expression is an error. -/
def colExprOnly : Expr → Except String Expr
  | .col c => .ok (.col c)
  | _ => .error "vindex column cannot be a complex expression"

/-- `matchColInSelect` (source lines 1646–1673): map a vindex column back to
the concrete source column of the select list.  A star projection matches any
column; an aliased entry matches by its alias, or by its column name when it
has no alias; a match against a composite expression is an error, as is any
other select-expression form; identifier comparison is case-insensitive
(`IdentifierCI.Equal`). -/
def matchColInSelect (col : String) : List SelectExpr → Except String Expr
  | [] => .error ("could not find vindex column " ++ col)
  | .star :: _ => .ok (.col col)
  | .aliased ex asName :: rest =>
    (match aliasMatchName ex asName with
     | none => matchColInSelect col rest
     | some m =>
       if goEqualFold m col then colExprOnly ex
       else matchColInSelect col rest)
  | .otherSel tag :: _ => .error ("unsupported select expression: " ++ tag)

/-- A table setting (`*vtctldatapb.TableMaterializeSettings`): target table,
source expression (parsed form; `.empty` = passthrough), and create-DDL
policy (a literal DDL statement or one of the `copy` policies). -/
structure TableSetting where
  targetTable : String
  sourceExpression : SourceExpression
  createDdl : String
deriving DecidableEq

/-- The mapped-columns loop of the `generateInserts` table body (source lines
1594–1601): map each primary-vindex column to a concrete source column. -/
def matchColsInSelect (selExprs : List SelectExpr) :
    List String → Except String (List Expr)
  | [] => .ok []
  | c :: cs =>
    match matchColInSelect c selExprs with
    | .error e => .error e
    | .ok colE =>
      match matchColsInSelect selExprs cs with
      | .error e => .error e
      | .ok colEs => .ok (colE :: colEs)

/-- The per-table body of the `generateInserts` table loop (source lines
1569–1634): an empty source expression yields a passthrough rule; otherwise
the expression must be a select; when the target keyspace is sharded and the
target table is not a reference table, the table's primary column-vindex
columns are mapped back to source columns and an `in_keyrange` predicate
(columns, `targetKeyspace.vindexName`, key-range placeholder) is conjoined
onto the WHERE clause (or becomes the sole WHERE clause).  A sharded target
table missing from the VSchema would be a nil dereference in Go; it is
unreachable because `buildMaterializer` checks presence, and is modelled by
the default `TableSpec`, which has no vindex and errors. -/
def generateRuleForTable (targetVSchema : VSchema) (targetKeyspace : String)
    (ts : TableSetting) : Except String Rule :=
  match ts.sourceExpression with
  | .empty => .ok ⟨ts.targetTable, none⟩
  | .invalid raw => .error ("syntax error: " ++ raw)
  | .otherStmt raw => .error ("unrecognized statement: " ++ raw)
  | .selectStmt sel =>
    if targetVSchema.sharded &&
        ((assocGet targetVSchema.tables ts.targetTable).getD default).typ
          != "reference" then
      match findBestColVindex
          ((assocGet targetVSchema.tables ts.targetTable).getD default) with
      | .error e => .error e
      | .ok cv =>
        match matchColsInSelect sel.selExprs cv.columns with
        | .error e => .error e
        | .ok mappedCols =>
          let vindexName := targetKeyspace ++ "." ++ cv.name
          let subExprs := mappedCols ++ [Expr.lit vindexName, Expr.lit keyrangePlaceholder]
          let inKeyRange := Expr.func "in_keyrange" subExprs
          let newWhere := match sel.whereE with
            | some w => Expr.andE inKeyRange w
            | none => inKeyRange
          .ok ⟨ts.targetTable, some { sel with whereE := some newWhere }⟩
    else
      .ok ⟨ts.targetTable, some sel⟩

/-! ## Materialize settings and the materializer context -/

/-- `vtctldatapb.MaterializationIntent`: `CUSTOM` (plain Materialize),
`MOVETABLES`, `CREATELOOKUPINDEX`. -/
inductive MatIntent where
  | custom
  | moveTables
  | createLookupIndex
deriving DecidableEq

/-- `*vtctldatapb.MaterializeSettings`. -/
structure MatSettings where
  workflow : String
  intent : MatIntent
  sourceKeyspace : String
  targetKeyspace : String
  cell : String
  tabletTypes : String
  stopAfterCopy : Bool
  externalCluster : String
  sourceTimeZone : String
  targetTimeZone : String
  sourceShards : List String
  tableSettings : List TableSetting
deriving DecidableEq

/-- A resolved shard (`*topo.ShardInfo` together with its primary tablet's
identity): keyspace, shard name, key range, primary tablet alias and the
primary's database name.  Primaries are modelled as always resolvable; a
missing primary only adds error paths none of the claims depend on. -/
structure ShardDef where
  keyspace : String
  name : String
  keyRange : KeyRange
  primaryAlias : String
  dbName : String
deriving DecidableEq

/-- The `materializer` struct (source lines 428–435). -/
structure Materializer where
  ms : MatSettings
  targetVSchema : VSchema
  sourceShards : List ShardDef
  targetShards : List ShardDef
  isPartialWf : Bool
deriving DecidableEq

/-- A serialized source descriptor (`*binlogdatapb.BinlogSource`). -/
structure BinlogSource where
  keyspace : String
  shard : String
  rules : List Rule
  stopAfterCopy : Bool
  externalCluster : String
  sourceTimeZone : String
  targetTimeZone : String
deriving DecidableEq

/-- One row the insert generator (`NewInsertGenerator`/`AddRow`) emits for a
target shard, before the per-shard two-slot substitution: workflow, source
descriptor, cell and tablet-type selectors, state (`BlpStopped` at creation),
materialization intent and workflow subtype (`Partial` iff the workflow is
shard-scoped).  The `dbname` template slot is filled at insert time. -/
structure PendingRow where
  workflow : String
  bls : BinlogSource
  cell : String
  tabletTypes : String
  state : String
  intent : MatIntent
  subtypePartial : Bool
deriving DecidableEq

/-- The table loop of `generateInserts` (source lines 1569–1634): one `Rule`
per table setting, aborting on the first error. -/
def generateRulesForTables (targetVSchema : VSchema) (targetKeyspace : String) :
    List TableSetting → Except String (List Rule)
  | [] => .ok []
  | ts :: rest =>
    match generateRuleForTable targetVSchema targetKeyspace ts with
    | .error e => .error e
    | .ok r =>
      match generateRulesForTables targetVSchema targetKeyspace rest with
      | .error e => .error e
      | .ok rs => .ok (r :: rs)

/-- The source-shard loop of `generateInserts` (source lines 1552–1642).  For
MoveTables intent, a source shard whose key range does not intersect the
target shard's key range is skipped entirely; otherwise a `BinlogSource` with
the per-table rules is built and one row is emitted. -/
def generateInsertRows (mz : Materializer) (targetShard : ShardDef) :
    List ShardDef → Except String (List PendingRow)
  | [] => .ok []
  | sourceShard :: rest =>
    if mz.ms.intent = .moveTables ∧
        ¬ keyRangesIntersect sourceShard.keyRange targetShard.keyRange then
      generateInsertRows mz targetShard rest
    else
      match generateRulesForTables mz.targetVSchema mz.ms.targetKeyspace
          mz.ms.tableSettings with
      | .error e => .error e
      | .ok rules =>
        match generateInsertRows mz targetShard rest with
        | .error e => .error e
        | .ok rows =>
          .ok (⟨mz.ms.workflow,
                ⟨mz.ms.sourceKeyspace, sourceShard.name, rules,
                 mz.ms.stopAfterCopy, mz.ms.externalCluster,
                 mz.ms.sourceTimeZone, mz.ms.targetTimeZone⟩,
                mz.ms.cell, mz.ms.tabletTypes, "Stopped", mz.ms.intent,
                mz.isPartialWf⟩ :: rows)

/-- `generateInserts` (source lines 1549–1644): the rows of the batched insert
statement for one target shard. -/
def generateInserts (mz : Materializer) (targetShard : ShardDef) :
    Except String (List PendingRow) :=
  generateInsertRows mz targetShard mz.sourceShards

/-! ## Schema deployment (`deploySchema`, source lines 1390–1495) -/

/-- Create-DDL policy constants (source lines 437–441). -/
def createDDLAsCopy : String := "copy"

/-- See `createDDLAsCopy`. -/
def createDDLAsCopyDropConstraint : String := "copy:drop_constraint"

/-- See `createDDLAsCopy`. -/
def createDDLAsCopyDropForeignKeys : String := "copy:drop_foreign_keys"

/-- `sqlparser.TableFromStatement` (opaque parse capability) on a parsed
source expression: the single table of a select statement's FROM clause. -/
def tableFromStatement : SourceExpression → Except String String
  | .selectStmt s => .ok s.fromTable
  | .empty => .error "empty statement"
  | .otherStmt raw => .error ("unsupported non-select statement: " ++ raw)
  | .invalid raw => .error ("syntax error: " ++ raw)

/-- Resolution of the create DDL for one absent target table (source lines
1419–1476).  `stripC`/`stripFK` are the external SQL-rewrite capabilities used
by `stripTableConstraints`/`stripTableForeignKeys`; `sourceDDLs` is the
lazily-fetched source schema map.  An empty policy is an error; a copy-family
policy requires (for a non-empty source query) that the query's source table
equal the target table, then rewrites the fetched source DDL per policy; any
other policy string is a literal DDL statement used verbatim. -/
def resolveCreateDDL (stripC stripFK : String → Except String String)
    (sourceDDLs : List (String × String)) (ts : TableSetting) :
    Except String String :=
  if ts.createDdl = "" then
    .error ("target table " ++ ts.targetTable ++
            " does not exist and there is no create ddl defined")
  else if ts.createDdl = createDDLAsCopy ∨
      ts.createDdl = createDDLAsCopyDropConstraint ∨
      ts.createDdl = createDDLAsCopyDropForeignKeys then
    match (match ts.sourceExpression with
           | .empty => .ok ()
           | se =>
             match tableFromStatement se with
             | .error e => .error e
             | .ok sourceTableName =>
               if sourceTableName ≠ ts.targetTable then
                 .error ("source and target table names must match for copying schema: " ++
                         sourceTableName ++ " vs " ++ ts.targetTable)
               else .ok () : Except String Unit) with
    | .error e => .error e
    | .ok _ =>
      match assocGet sourceDDLs ts.targetTable with
      | none => .error ("source table " ++ ts.targetTable ++ " does not exist")
      | some ddl =>
        if ts.createDdl = createDDLAsCopyDropConstraint then stripC ddl
        else if ts.createDdl = createDDLAsCopyDropForeignKeys then stripFK ddl
        else .ok ddl
  else .ok ts.createDdl

/-- The table loop of `deploySchema` for one target shard (source lines
1413–1477): settings whose target table is already in the shard's current
table list are skipped; each remaining setting contributes one resolved DDL
statement, aborting on the first error. -/
def deployShardDDLs (stripC stripFK : String → Except String String)
    (sourceDDLs : List (String × String)) (targetTables : List String) :
    List TableSetting → Except String (List String)
  | [] => .ok []
  | ts :: rest =>
    if ts.targetTable ∈ targetTables then
      deployShardDDLs stripC stripFK sourceDDLs targetTables rest
    else
      match resolveCreateDDL stripC stripFK sourceDDLs ts with
      | .error e => .error e
      | .ok d =>
        match deployShardDDLs stripC stripFK sourceDDLs targetTables rest with
        | .error e => .error e
        | .ok ds => .ok (d :: ds)

/-! ## Engine state and external environment

The topology store, the per-node management RPC clients and the opaque
capabilities are split into a read-only environment `Env` and a mutable state
`St` threaded through the orchestration functions.  Topology writes and
replication-control statements are modelled as always succeeding (their
transport failures only add per-shard error paths no claim depends on). -/

/-- One persisted row of the `_vt.vreplication` replication-control table. -/
structure StreamRow where
  id : Nat
  workflow : String
  bls : BinlogSource
  cell : String
  tabletTypes : String
  state : String
  message : String
  dbName : String
  intent : MatIntent
  subtypePartial : Bool
deriving DecidableEq

/-- One table definition returned by a `GetSchema` RPC
(`*tabletmanagerdatapb.TableDefinition`): the CREATE DDL text and the column
fields (name, type). -/
structure TableDef where
  schemaDDL : String
  fields : List (String × String)
deriving DecidableEq

/-- The read-only external world: serving shards per keyspace, each primary
tablet's current schema (table name → definition), each primary's existing
resharding-journal entries, whether the time-zone probe succeeds, and the
opaque SQL-rewrite / vindex capabilities (constraint stripping, vindex-type
choice for a column type, vindex parameter validation — `CreateVindex`). -/
structure Env where
  servingShards : List (String × List ShardDef)
  tabletSchemas : List (String × List (String × TableDef))
  tabletJournals : List (String × List Nat)
  tzProbeOk : Bool
  stripC : String → Except String String
  stripFK : String → Except String String
  chooseVindexForType : String → Except String String
  vindexParamsOk : String → List (String × String) → Except String Unit

/-- The mutable world: global routing rules, the per-keyspace VSchema
documents, an audit log of applied schema-change batches (primary alias ×
batched SQL), and the replication-control rows. -/
structure St where
  routingRules : List (String × List String)
  savedVSchemas : List (String × VSchema)
  appliedSchemaChanges : List (String × String)
  streams : List StreamRow
deriving DecidableEq

/-- `ts.GetServingShards`: the serving shards of a keyspace (an unknown
keyspace yields `[]`, caught by the emptiness checks of the callers). -/
def getServingShards (env : Env) (ks : String) : List ShardDef :=
  (assocGet env.servingShards ks).getD []

/-- `ts.GetVSchema`: fails for an unknown keyspace (covering both the
transport error and the nil-vschema check of the callers). -/
def getVSchema (st : St) (ks : String) : Except String VSchema :=
  match assocGet st.savedVSchemas ks with
  | none => .error ("no vschema found for keyspace " ++ ks)
  | some vs => .ok vs

/-- Modelled from the spec: `wr.validateNewWorkflow` (defined outside the
shown source) — "Validate workflow name uniqueness in the target keyspace": a
replication-control row with the same workflow name on any of the target
keyspace's primaries fails the operation. -/
def validateNewWorkflow (env : Env) (st : St) (targetKeyspace workflow : String) :
    Except String Unit :=
  let tShards := getServingShards env targetKeyspace
  if st.streams.any (fun r =>
      r.workflow == workflow && tShards.any (fun s => s.dbName == r.dbName)) then
    .error ("workflow " ++ workflow ++ " already exists in keyspace " ++ targetKeyspace)
  else .ok ()

/-- The sharded-target table-presence check of `buildMaterializer` (source
lines 1306–1312). -/
def checkTargetTables (vs : VSchema) : List TableSetting → Except String Unit
  | [] => .ok ()
  | ts :: rest =>
    if (assocGet vs.tables ts.targetTable).isNone then
      .error ("table " ++ ts.targetTable ++ " not found in vschema")
    else checkTargetTables vs rest

/-- The shard-subset filter of `buildMaterializer` (source lines 1318–1350). -/
def filterShardsBySubset (shards : List ShardDef) (subset : List String) :
    List ShardDef :=
  shards.filter (fun s => subset.any (fun n => n == s.name))

/-- `buildMaterializer` (source lines 1297–1363).  `BuildKeyspaceSchema` is an
external capability of the vindexes package; the keyspace-schema view it
builds is modelled by the VSchema document itself. -/
def buildMaterializer (env : Env) (st : St) (ms : MatSettings) :
    Except String Materializer :=
  match getVSchema st ms.targetKeyspace with
  | .error e => .error e
  | .ok vs =>
    match (if vs.sharded then checkTargetTables vs ms.tableSettings
           else .ok ()) with
    | .error e => .error e
    | .ok _ =>
      let sourceShards0 := getServingShards env ms.sourceKeyspace
      let sourceShards := if ms.sourceShards.isEmpty then sourceShards0
        else filterShardsBySubset sourceShards0 ms.sourceShards
      if sourceShards.isEmpty then
        .error ("no source shards specified for workflow " ++ ms.workflow ++ " ")
      else
        let targetShards0 := getServingShards env ms.targetKeyspace
        let targetShards := if ms.sourceShards.isEmpty then targetShards0
          else filterShardsBySubset targetShards0 ms.sourceShards
        if targetShards.isEmpty then
          .error ("no target shards specified for workflow " ++ ms.workflow ++ " ")
        else .ok ⟨ms, vs, sourceShards, targetShards, !ms.sourceShards.isEmpty⟩

/-- `getSourceTableDDLs` (source lines 1365–1388): the full table → DDL map of
the first source shard's primary. -/
def getSourceTableDDLs (env : Env) (mz : Materializer) :
    Except String (List (String × String)) :=
  match mz.sourceShards with
  | [] => .error "source shard must have a primary for copying schema"
  | s0 :: _ =>
    .ok (((assocGet env.tabletSchemas s0.primaryAlias).getD []).map
      (fun p => (p.1, p.2.schemaDDL)))

/-- One target shard's work in `deploySchema` (source lines 1394–1494):
resolve the DDLs of absent target tables and batch them into one
schema-change call.  The mutex-guarded lazy source-DDL fetch is modelled by an
eager lookup, which is equivalent because the modelled fetch cannot fail. -/
def deploySchemaShard (env : Env) (mz : Materializer) (shard : ShardDef) :
    Except String (Option (String × String)) :=
  let targetTables :=
    ((assocGet env.tabletSchemas shard.primaryAlias).getD []).map (fun p => p.1)
  match getSourceTableDDLs env mz with
  | .error e => .error e
  | .ok sourceDDLs =>
    match deployShardDDLs env.stripC env.stripFK sourceDDLs targetTables
        mz.ms.tableSettings with
    | .error e => .error e
    | .ok [] => .ok none
    | .ok ddls => .ok (some (shard.primaryAlias, String.intercalate ";\n" ddls))

/-- The `forAllTargets` fan-out of `deploySchema`: every shard is attempted,
errors are aggregated, and successful shards' side effects are kept. -/
def deploySchemaAll (env : Env) (mz : Materializer) (st : St) :
    List ShardDef → St × Except String Unit
  | [] => (st, .ok ())
  | shard :: rest =>
    match deploySchemaShard env mz shard with
    | .error e =>
      match deploySchemaAll env mz st rest with
      | (st2, .ok _) => (st2, .error e)
      | (st2, .error e2) => (st2, .error (e ++ "\n" ++ e2))
    | .ok none => deploySchemaAll env mz st rest
    | .ok (some change) =>
      deploySchemaAll env mz
        { st with appliedSchemaChanges := st.appliedSchemaChanges ++ [change] } rest

/-- MySQL auto-increment for a primary's `_vt.vreplication` table: one past
the largest existing id in that database. -/
def nextStreamId (streams : List StreamRow) (db : String) : Nat :=
  1 + (streams.filterMap (fun r => if r.dbName == db then some r.id else none)).foldl
        max 0

/-- Instantiate pending rows on one target primary (the `dbname` slot of the
two-slot template substitution; the `keyrange` slot replaces the placeholder
literal inside the serialized filter text and is left symbolic here since no
claim depends on the substituted value). -/
def instantiateRows (db : String) : Nat → List PendingRow → List StreamRow
  | _, [] => []
  | base, p :: ps =>
    ⟨base, p.workflow, p.bls, p.cell, p.tabletTypes, p.state, "", db, p.intent,
     p.subtypePartial⟩ :: instantiateRows db (base + 1) ps

/-- The per-target-shard loop computing the insert map of
`prepareMaterializerStreams` (source lines 1274–1281). -/
def genInsertsMap (mz : Materializer) :
    List ShardDef → Except String (List (String × List PendingRow))
  | [] => .ok []
  | shard :: rest =>
    match generateInserts mz shard with
    | .error e => .error e
    | .ok rows =>
      match genInsertsMap mz rest with
      | .error e => .error e
      | .ok m => .ok ((shard.name, rows) :: m)

/-- `createStreams` (source lines 1675–1696): execute each target shard's
batched insert on its primary. -/
def createStreamsAll (insertsMap : List (String × List PendingRow)) (st : St) :
    List ShardDef → St
  | [] => st
  | shard :: rest =>
    let rows := (assocGet insertsMap shard.name).getD []
    let base := nextStreamId st.streams shard.dbName
    createStreamsAll insertsMap
      { st with streams := st.streams ++ instantiateRows shard.dbName base rows } rest

/-- `prepareMaterializerStreams` (source lines 1263–1286): workflow-name
uniqueness check, materializer construction, schema deployment, insert
generation, stream creation. -/
def prepareMaterializerStreams (env : Env) (st : St) (ms : MatSettings) :
    St × Except String Materializer :=
  match validateNewWorkflow env st ms.targetKeyspace ms.workflow with
  | .error e => (st, .error e)
  | .ok _ =>
    match buildMaterializer env st ms with
    | .error e => (st, .error e)
    | .ok mz =>
      match deploySchemaAll env mz st mz.targetShards with
      | (st2, .error e) => (st2, .error e)
      | (st2, .ok _) =>
        match genInsertsMap mz mz.targetShards with
        | .error e => (st2, .error e)
        | .ok m => (createStreamsAll m st2 mz.targetShards, .ok mz)

/-- `startStreams` (source lines 1698–1710): flip the workflow's rows to
Running on every target primary. -/
def startStreams (st : St) (mz : Materializer) : St :=
  { st with streams := st.streams.map (fun r =>
      if r.workflow == mz.ms.workflow &&
          mz.targetShards.any (fun s => s.dbName == r.dbName) then
        { r with state := "Running" }
      else r) }

/-- `Materialize` (source lines 1289–1295). -/
def materializeOp (env : Env) (st : St) (ms : MatSettings) :
    St × Except String Unit :=
  match prepareMaterializerStreams env st ms with
  | (st2, .error e) => (st2, .error e)
  | (st2, .ok mz) => (startStreams st2 mz, .ok ())

/-- `collectTargetStreams` (source lines 1218–1249): the `shard:id` strings of
the workflow's rows on every target shard.  The Go fan-out appends them in
nondeterministic order; the order is irrelevant because the only consumer
(`getMigrationID`) sorts them. -/
def collectTargetStreams (st : St) (mz : Materializer) : List String :=
  mz.targetShards.flatMap (fun shard =>
    st.streams.filterMap (fun r =>
      if r.dbName == shard.dbName && r.workflow == mz.ms.workflow then
        some (shard.name ++ ":" ++ toString r.id)
      else none))

/-- `checkIfPreviousJournalExists` (source lines 738–783).  Each source
shard's goroutine assigns the *shared* `exists` variable
(`_, exists, err = ws.CheckReshardingJournalExistsOnTablet(…)`) with no
mutex around it, so the returned flag is the last writer's per-shard result,
not a disjunction over the shards; under this file's sequential rendering of
the fan-out that is the last source shard's result (`foldl` that overwrites
its accumulator), and `false` when there are no source shards (the variable's
initial value).  The `tablets` list *is* mutex-guarded and collects the
primary aliases of every shard whose check found the entry.
`CheckReshardingJournalExistsOnTablet` is defined outside the shown source;
per the spec it reports whether the tablet's `_vt.resharding_journal` has an
entry keyed by the id. -/
def checkIfPreviousJournalExists (env : Env) (mz : Materializer)
    (migrationID : Nat) : Bool × List String :=
  (mz.sourceShards.foldl (fun _ s =>
     ((assocGet env.tabletJournals s.primaryAlias).getD []).contains migrationID)
     false,
   mz.sourceShards.filterMap (fun s =>
     if ((assocGet env.tabletJournals s.primaryAlias).getD []).contains migrationID
     then some s.primaryAlias else none))

/-- The IdempotencyError message of `MoveTables` (source lines 666–670),
naming the affected tablets. -/
def journalMsg (migrationID : Nat) (tablets : List String)
    (workflow targetKeyspace : String) : String :=
  "found an entry from a previous run for migration id " ++ toString migrationID ++
  " in _vt.resharding_journal of tablets " ++ String.intercalate "," tablets ++
  "," ++ "please review and delete it before proceeding and restart the workflow using the Workflow " ++
  workflow ++ "." ++ targetKeyspace ++ " start"

/-! ## MoveTables (source lines 492–679) -/

/-- The inputs of `MoveTables`.  `tables` is the resolved table list: the
tableSpecs/allTables/excludeTables resolution (source lines 517–569) only
validates and computes this list, mutating nothing, and is elided. -/
structure MoveTablesInput where
  workflow : String
  sourceKeyspace : String
  targetKeyspace : String
  cell : String
  tabletTypes : String
  tables : List String
  autoStart : Bool
  stopAfterCopy : Bool
  externalCluster : String
  dropForeignKeys : Bool
  sourceTimeZone : String
  sourceShards : List String
deriving DecidableEq

/-- `addTablesToVSchema` (source lines 447–469): add an empty table entry per
table to the (unsharded) target VSchema; when `copyAttributes`, copy each
table's auto-increment binding from the source keyspace's VSchema. -/
def addTablesToVSchema (st : St) (sourceKeyspace : String)
    (targetVSchema : VSchema) (tables : List String) (copyAttributes : Bool) :
    Except String VSchema :=
  let vs := { targetVSchema with
    tables := tables.foldl (fun acc t => assocSet acc t ⟨"", [], none⟩)
      targetVSchema.tables }
  if copyAttributes then
    match getVSchema st sourceKeyspace with
    | .error e => .error e
    | .ok src =>
      .ok { vs with tables := vs.tables.map (fun p =>
        if tables.contains p.1 then
          match assocGet src.tables p.1 with
          | some srcT => (p.1, { p.2 with autoIncrement := srcT.autoIncrement })
          | none => p
        else p) }
  else .ok vs

/-- The routing-rule updates of `MoveTables` (source lines 584–595), including
the duplicated `targetKeyspace.table` assignment of the source. -/
def updateRoutingRules (sourceKeyspace targetKeyspace : String) :
    List (String × List String) → List String → List (String × List String)
  | rules, [] => rules
  | rules, table :: rest =>
    let toSource := [sourceKeyspace ++ "." ++ table]
    let r1 := assocSet rules table toSource
    let r2 := assocSet r1 (table ++ "@replica") toSource
    let r3 := assocSet r2 (table ++ "@rdonly") toSource
    let r4 := assocSet r3 (targetKeyspace ++ "." ++ table) toSource
    let r5 := assocSet r4 (targetKeyspace ++ "." ++ table ++ "@replica") toSource
    let r6 := assocSet r5 (targetKeyspace ++ "." ++ table ++ "@rdonly") toSource
    let r7 := assocSet r6 (targetKeyspace ++ "." ++ table) toSource
    let r8 := assocSet r7 (sourceKeyspace ++ "." ++ table ++ "@replica") toSource
    let r9 := assocSet r8 (sourceKeyspace ++ "." ++ table ++ "@rdonly") toSource
    updateRoutingRules sourceKeyspace targetKeyspace r9 rest

/-- The first stage of `MoveTables` (source lines 509–608): read the target
VSchema, add the tables to it when the target is unsharded, then (unless the
source is an external cluster) save the routing rules and the target VSchema.
Topology writes are modelled as succeeding; `RebuildSrvVSchema` refreshes a
cache and is a no-op here. -/
def moveTablesStage1 (st : St) (inp : MoveTablesInput) :
    Except String St :=
  match getVSchema st inp.targetKeyspace with
  | .error e => .error e
  | .ok vs0 =>
    if inp.tables.isEmpty then .error "no tables to move"
    else
      match (if !vs0.sharded then
               addTablesToVSchema st inp.sourceKeyspace vs0 inp.tables
                 (inp.externalCluster = "")
             else .ok vs0) with
      | .error e => .error e
      | .ok vs =>
        if inp.externalCluster = "" then
          .ok { st with
            routingRules := updateRoutingRules inp.sourceKeyspace
              inp.targetKeyspace st.routingRules inp.tables,
            savedVSchemas := assocSet st.savedVSchemas inp.targetKeyspace vs }
        else .ok st

/-- The `MaterializeSettings` built by `MoveTables` (source lines 609–637):
when a source time zone is given the target time zone is the literal `"UTC"`,
otherwise both time-zone fields keep their empty defaults; each table becomes
a `select * from table` setting with a copy policy (dropping foreign keys when
requested). -/
def moveTablesSettings (inp : MoveTablesInput) : MatSettings :=
  { workflow := inp.workflow
    intent := .moveTables
    sourceKeyspace := inp.sourceKeyspace
    targetKeyspace := inp.targetKeyspace
    cell := inp.cell
    tabletTypes := inp.tabletTypes
    stopAfterCopy := inp.stopAfterCopy
    externalCluster := inp.externalCluster
    sourceTimeZone := inp.sourceTimeZone
    targetTimeZone := if inp.sourceTimeZone ≠ "" then "UTC" else ""
    sourceShards := inp.sourceShards
    tableSettings := inp.tables.map (fun t =>
      ⟨t, .selectStmt ⟨[.star], t, none, []⟩,
       if inp.dropForeignKeys then createDDLAsCopyDropForeignKeys
       else createDDLAsCopy⟩) }

/-- `MoveTables` (source lines 492–679): stage 1 (routing rules + VSchema),
stream preparation, the optional time-zone probe, the migration-journal
idempotency check (only without an external source cluster), and the optional
auto-start. -/
def moveTables (env : Env) (st : St) (inp : MoveTablesInput) :
    St × Except String Unit :=
  match moveTablesStage1 st inp with
  | .error e => (st, .error e)
  | .ok st1 =>
    let ms := moveTablesSettings inp
    match prepareMaterializerStreams env st1 ms with
    | (st2, .error e) => (st2, .error e)
    | (st2, .ok mz) =>
      if inp.sourceTimeZone ≠ "" ∧ ¬ env.tzProbeOk then
        (st2, .error "unable to perform time_zone conversions")
      else
        let tabletShards := collectTargetStreams st2 mz
        let migrationID := getMigrationID inp.targetKeyspace tabletShards
        match (if inp.externalCluster = "" then
                 let res := checkIfPreviousJournalExists env mz migrationID
                 if res.1 then
                   some (journalMsg migrationID res.2 inp.workflow inp.targetKeyspace)
                 else none
               else none) with
        | some msg => (st2, .error msg)
        | none =>
          if inp.autoStart then (startStreams st2 mz, .ok ()) else (st2, .ok ())

/-! ## CreateLookupVindex (source lines 786–1101) -/

/-- Splitting accumulator for `goSplit`. -/
def splitOnCharAux (c : Char) : List Char → List Char → List (List Char)
  | [], acc => [acc.reverse]
  | x :: xs, acc =>
    if x == c then acc.reverse :: splitOnCharAux c xs []
    else splitOnCharAux c xs (x :: acc)

/-- Go `strings.Split s sep` for a one-character separator (the only kind this
engine uses: `"."`, `","`, `"\n"`). -/
def goSplit (s : String) (c : Char) : List String :=
  (splitOnCharAux c s.data []).map (fun l => ⟨l⟩)

/-- Modelled from the spec: `sqlparser.ParseTable` (opaque parse capability) —
parse a `<keyspace>.<table>` qualified name; an unqualified name parses with
an empty keyspace (callers reject that), anything else fails. -/
def parseTable (s : String) : Option (String × String) :=
  match goSplit s '.' with
  | [t] => some ("", t)
  | [k, t] => some (k, t)
  | _ => none

/-- Modelled from the spec: `schema.IsInternalOperationTableName` — internal
operation artifacts (names prefixed `_vt_`) are not regular user tables. -/
def isInternalOperationTableName (t : String) : Bool :=
  "_vt_".data.isPrefixOf t.data

/-- `sqlescape.EscapeID` (external): backtick-quote an identifier. -/
def escapeID (s : String) : String := "`" ++ s ++ "`"

/-- `generateColDef` (source lines 1088–1101): find the first schema line
after the header containing the escaped source column, rename the column to
the target "from" column, and strip ` AUTO_INCREMENT` and ` DEFAULT NULL`
modifiers (first occurrence each, as `strings.Replace(…, 1)` does). -/
def generateColDef (ddlLines : List String) (sourceVindexCol vindexFromCol : String) :
    Except String String :=
  let source := escapeID sourceVindexCol
  let target := escapeID vindexFromCol
  match ddlLines.tail.find? (fun line => goContains line source) with
  | some line =>
    .ok (goReplaceFirst
          (goReplaceFirst (goReplaceFirst line source target)
            " AUTO_INCREMENT" "")
          " DEFAULT NULL" "")
  | none => .error ("column " ++ sourceVindexCol ++ " not found in schema")

/-- The per-column loop over `generateColDef` (source lines 974–980). -/
def generateColDefs (ddlLines : List String) :
    List (String × String) → Except String (List String)
  | [] => .ok []
  | (src, tgt) :: rest =>
    match generateColDef ddlLines src tgt with
    | .error e => .error e
    | .ok l =>
      match generateColDefs ddlLines rest with
      | .error e => .error e
      | .ok ls => .ok (l :: ls)

/-- The source-VSchema column-vindex conflict check of `prepareCreateLookup`
(source lines 934–946): an existing binding with the same vindex name and the
same first column is a conflict. -/
def hasConflictingColVindex (cvs : List ColumnVindexSpec) (vindexName svc0 : String) :
    Bool :=
  cvs.any (fun cv =>
    cv.name == vindexName &&
    (if cv.columns.isEmpty then cv.column else cv.columns.headD "") == svc0)

/-- Stage 6 of `prepareCreateLookup` (source lines 1000–1086): merge the
target-vindex choice into the target VSchema (conflict-checked), add the
backing table entry (conflict-checked), and build the Materialize settings and
the updated source VSchema.  When source and target keyspace coincide the Go
code aliases the two VSchema documents; this is modelled by applying the
source-side updates on top of the target-side updates and returning the merged
document for both. -/
def prepCL6 (keyspace : String) (continueAfterCopyWithOwner : Bool)
    (vindexName : String) (vindex : VindexSpec) (vindexFromCols : List String)
    (targetKeyspace targetTableName sourceTableName : String)
    (colVindex0 : ColumnVindexSpec) (sourceVSchema targetVSchema0 : VSchema)
    (sourceVSchemaTable : TableSpec) (createDDL : String)
    (materializeQuery : Select) (targetVindexTypeOpt : Option String) :
    Except String (MatSettings × VSchema × VSchema) :=
  match (match targetVindexTypeOpt with
         | some tvt =>
           let targetVindex : VindexSpec := ⟨tvt, "", []⟩
           (match assocGet targetVSchema0.vindexes tvt with
            | some existing =>
              if existing ≠ targetVindex then
                .error ("a conflicting vindex named " ++ tvt ++
                        " already exists in the target vschema")
              else .ok (targetVSchema0,
                TableSpec.mk "" [⟨tvt, vindexFromCols.headD "", []⟩] none)
            | none =>
              .ok ({ targetVSchema0 with
                    vindexes := assocSet targetVSchema0.vindexes tvt targetVindex },
                TableSpec.mk "" [⟨tvt, vindexFromCols.headD "", []⟩] none))
         | none => .ok (targetVSchema0, TableSpec.mk "" [] none) :
           Except String (VSchema × TableSpec)) with
  | .error e => .error e
  | .ok (targetVSchema1, targetTable) =>
    match (match assocGet targetVSchema1.tables targetTableName with
           | some existing =>
             if existing ≠ targetTable then
               .error ("a conflicting table named " ++ targetTableName ++
                       " already exists in the target vschema")
             else .ok targetVSchema1
           | none =>
             .ok { targetVSchema1 with
               tables := assocSet targetVSchema1.tables targetTableName targetTable } :
             Except String VSchema) with
    | .error e => .error e
    | .ok targetVSchema2 =>
      let ms : MatSettings :=
        { workflow := targetTableName ++ "_vdx"
          intent := .createLookupIndex
          sourceKeyspace := keyspace
          targetKeyspace := targetKeyspace
          cell := ""
          tabletTypes := ""
          stopAfterCopy := vindex.owner ≠ "" ∧ ¬ continueAfterCopyWithOwner
          externalCluster := ""
          sourceTimeZone := ""
          targetTimeZone := ""
          sourceShards := []
          tableSettings :=
            [⟨targetTableName, .selectStmt materializeQuery, createDDL⟩] }
      let sourceBase :=
        if keyspace = targetKeyspace then targetVSchema2 else sourceVSchema
      let updatedTable : TableSpec :=
        { sourceVSchemaTable with
          columnVindexes := sourceVSchemaTable.columnVindexes ++ [colVindex0] }
      let sourceVSchemaOut : VSchema :=
        { sourceBase with
          vindexes := assocSet sourceBase.vindexes vindexName vindex,
          tables := assocSet sourceBase.tables sourceTableName updatedTable }
      let targetVSchemaOut :=
        if keyspace = targetKeyspace then sourceVSchemaOut else targetVSchema2
      .ok (ms, sourceVSchemaOut, targetVSchemaOut)

/-- Stage 5 of `prepareCreateLookup` (source lines 963–999): build the
backing-table CREATE DDL and the backfill query, and — for a sharded target —
choose the target vindex type from the source column's type. -/
def prepCL5 (env : Env) (keyspace : String) (continueAfterCopyWithOwner : Bool)
    (vindexName : String) (vindex : VindexSpec) (vindexFromCols : List String)
    (vindexToCol : String) (targetKeyspace targetTableName sourceTableName : String)
    (colVindex0 : ColumnVindexSpec) (sourceVindexColumns : List String)
    (sourceVSchema targetVSchema0 : VSchema) (sourceVSchemaTable : TableSpec)
    (def0 : TableDef) :
    Except String (MatSettings × VSchema × VSchema) :=
  let ddlLines := goSplit def0.schemaDDL '\n'
  if ddlLines.length < 3 then
    .error ("schema looks incorrect: " ++ def0.schemaDDL ++
            ", expecting at least four lines")
  else
    match generateColDefs ddlLines (sourceVindexColumns.zip vindexFromCols) with
    | .error e => .error e
    | .ok colDefs =>
      let headerLine :=
        goReplaceFirst (ddlLines.headD "") sourceTableName targetTableName
      let toColLine :=
        if paramsGet vindex.params "data_type" = "" ∨
            goEqualFold vindex.typ "consistent_lookup_unique" ∨
            goEqualFold vindex.typ "consistent_lookup" then
          "  " ++ escapeID vindexToCol ++ " varbinary(128),"
        else
          "  " ++ escapeID vindexToCol ++ " " ++
          escapeID (paramsGet vindex.params "data_type") ++ ","
      let pkLine :=
        "  PRIMARY KEY (" ++
        String.intercalate ", " (vindexFromCols.map escapeID) ++ ")"
      let createDDL :=
        String.intercalate "\n" (headerLine :: colDefs ++ [toColLine, pkLine, ")"])
      let projs : List SelectExpr :=
        (sourceVindexColumns.zip vindexFromCols).map
          (fun p => .aliased (.col p.1) p.2)
      let toProj : SelectExpr :=
        if goEqualFold vindexToCol "keyspace_id" ∨
            goEqualFold vindex.typ "consistent_lookup_unique" ∨
            goEqualFold vindex.typ "consistent_lookup" then
          .aliased (.func "keyspace_id" []) vindexToCol
        else .aliased (.col vindexToCol) vindexToCol
      let queryGroupBy : List Expr :=
        if vindex.owner ≠ "" then
          (vindexFromCols.map Expr.col) ++ [Expr.col vindexToCol]
        else []
      let materializeQuery : Select :=
        ⟨projs ++ [toProj], sourceTableName, none, queryGroupBy⟩
      match (if targetVSchema0.sharded then
               match def0.fields.find?
                   (fun f => f.1 == sourceVindexColumns.headD "") with
               | none =>
                 .error ("column " ++ sourceVindexColumns.headD "" ++
                         " not found in schema")
               | some f =>
                 match env.chooseVindexForType f.2 with
                 | .error e => .error e
                 | .ok tvt => .ok (some tvt)
             else .ok none : Except String (Option String)) with
      | .error e => .error e
      | .ok targetVindexTypeOpt =>
        prepCL6 keyspace continueAfterCopyWithOwner vindexName vindex
          vindexFromCols targetKeyspace targetTableName sourceTableName
          colVindex0 sourceVSchema targetVSchema0 sourceVSchemaTable
          createDDL materializeQuery targetVindexTypeOpt

/-- Stage 4 of `prepareCreateLookup` (source lines 921–961): conflict-check
the source VSchema (existing vindex of the same name, existing column-vindex
binding on the source table), require the source table in the source VSchema,
and fetch the source table's schema from the first serving shard's primary. -/
def prepCL4 (env : Env) (keyspace : String) (continueAfterCopyWithOwner : Bool)
    (vindexName : String) (vindex : VindexSpec) (vindexFromCols : List String)
    (vindexToCol : String) (targetKeyspace targetTableName sourceTableName : String)
    (colVindex0 : ColumnVindexSpec) (sourceVindexColumns : List String)
    (sourceVSchema targetVSchema0 : VSchema) :
    Except String (MatSettings × VSchema × VSchema) :=
  match (match assocGet sourceVSchema.vindexes vindexName with
         | some existing =>
           if existing ≠ vindex then
             .error ("a conflicting vindex named " ++ vindexName ++
                     " already exists in the source vschema")
           else .ok ()
         | none => .ok () : Except String Unit) with
  | .error e => .error e
  | .ok _ =>
    match assocGet sourceVSchema.tables sourceTableName with
    | none =>
      if ¬ isInternalOperationTableName sourceTableName then
        .error ("source table " ++ sourceTableName ++ " not found in vschema")
      else .error ("nil table " ++ sourceTableName)
    | some sourceVSchemaTable =>
      if hasConflictingColVindex sourceVSchemaTable.columnVindexes vindexName
          (sourceVindexColumns.headD "") then
        .error ("ColumnVindex for table " ++ sourceTableName ++
                " already exists, please remove it and try again")
      else
        match getServingShards env keyspace with
        | [] => .error (keyspace ++ " has no serving shards")
        | onesource :: _ =>
          match ((assocGet env.tabletSchemas onesource.primaryAlias).getD []).filter
              (fun p => p.1 == sourceTableName) with
          | [(_, def0)] =>
            prepCL5 env keyspace continueAfterCopyWithOwner vindexName vindex
              vindexFromCols vindexToCol targetKeyspace targetTableName
              sourceTableName colVindex0 sourceVindexColumns sourceVSchema
              targetVSchema0 sourceVSchemaTable def0
          | _ => .error "unexpected number of tables returned from schema"

/-- Stage 3 of `prepareCreateLookup` (source lines 884–920): validate the one
column-vindex binding of the source table (name and owner agreement, the
column list, its length against the `from` columns), then fetch the source and
target VSchemas. -/
def prepCL3 (env : Env) (st : St) (keyspace : String)
    (continueAfterCopyWithOwner : Bool) (vindexName : String)
    (vindex : VindexSpec) (vindexFromCols : List String) (vindexToCol : String)
    (targetKeyspace targetTableName sourceTableName : String)
    (sourceTable : TableSpec) :
    Except String (MatSettings × VSchema × VSchema) :=
  match sourceTable.columnVindexes with
  | [colVindex0] =>
    if colVindex0.name ≠ vindexName then
      .error ("ColumnVindex name must match vindex name: " ++
              colVindex0.name ++ " vs " ++ vindexName)
    else if vindex.owner ≠ "" ∧ vindex.owner ≠ sourceTableName then
      .error ("vindex owner must match table name: " ++
              vindex.owner ++ " vs " ++ sourceTableName)
    else
      match (if ¬ colVindex0.columns.isEmpty then .ok colVindex0.columns
             else if colVindex0.column = "" then
               .error "at least one column must be specified in ColumnVindexes"
             else .ok [colVindex0.column] : Except String (List String)) with
      | .error e => .error e
      | .ok sourceVindexColumns =>
        if sourceVindexColumns.length ≠ vindexFromCols.length then
          .error "length of table columns differes from length of vindex columns"
        else
          match getVSchema st keyspace with
          | .error e => .error e
          | .ok sourceVSchema =>
            match (if keyspace = targetKeyspace then .ok sourceVSchema
                   else getVSchema st targetKeyspace) with
            | .error e => .error e
            | .ok targetVSchema0 =>
              prepCL4 env keyspace continueAfterCopyWithOwner vindexName vindex
                vindexFromCols vindexToCol targetKeyspace targetTableName
                sourceTableName colVindex0 sourceVindexColumns sourceVSchema
                targetVSchema0
  | _ => .error "exactly one ColumnVindex must be specified for the table"

/-- Stage 2 of `prepareCreateLookup` (source lines 832–883): validate the
vindex (lookup family, backing-table parameter, `from`-column count against
uniqueness, vindex parameters after setting `write_only`), then require
exactly one table in the specs. -/
def prepCL2 (env : Env) (st : St) (keyspace : String) (specs : VSchema)
    (continueAfterCopyWithOwner : Bool) (vindexName : String)
    (vindex0 : VindexSpec) :
    Except String (MatSettings × VSchema × VSchema) :=
  if ¬ goContains vindex0.typ "lookup" then
    .error ("vindex " ++ vindex0.typ ++ " is not a lookup type")
  else
    match parseTable (paramsGet vindex0.params "table") with
    | none => .error ("vindex table name must be in the form keyspace.table. Got: " ++
                      paramsGet vindex0.params "table")
    | some (targetKeyspace, targetTableName) =>
      if targetKeyspace = "" then
        .error ("vindex table name must be in the form keyspace.table. Got: " ++
                paramsGet vindex0.params "table")
      else
        let vindexFromCols := goSplit (paramsGet vindex0.params "from") ','
        if goContains vindex0.typ "unique" ∧ vindexFromCols.length ≠ 1 then
          .error "unique vindex from should have only one column"
        else if ¬ goContains vindex0.typ "unique" ∧ vindexFromCols.length < 2 then
          .error "non-unique vindex from should have more than one column"
        else
          let vindexToCol := paramsGet vindex0.params "to"
          let vindex : VindexSpec :=
            { vindex0 with params := assocSet vindex0.params "write_only" "true" }
          match env.vindexParamsOk vindex.typ vindex.params with
          | .error e => .error e
          | .ok _ =>
            match specs.tables with
            | [(sourceTableName, sourceTable)] =>
              prepCL3 env st keyspace continueAfterCopyWithOwner vindexName
                vindex vindexFromCols vindexToCol targetKeyspace targetTableName
                sourceTableName sourceTable
            | _ => .error "exactly one table must be specified in the specs"

/-- `prepareCreateLookup` (source lines 807–1086): validate the one-vindex /
one-table spec, derive the backing-table DDL and the backfill query, merge the
new definitions into the source and target VSchemas (conflict-checked), and
build the Materialize settings.  The work is laid out in stages
`prepCL2`–`prepCL6`, in source order.  A missing source table that is an
internal operation table name leads to a nil-pointer dereference in Go (the
later `append` through the nil table); that panic is modelled as an error in
`prepCL4`. -/
def prepareCreateLookup (env : Env) (st : St) (keyspace : String)
    (specs : VSchema) (continueAfterCopyWithOwner : Bool) :
    Except String (MatSettings × VSchema × VSchema) :=
  match specs.vindexes with
  | [(vindexName, vindex0)] =>
    prepCL2 env st keyspace specs continueAfterCopyWithOwner vindexName vindex0
  | _ => .error "only one vindex must be specified in the specs"

/-- `CreateLookupVindex` (source lines 786–804): prepare, save the target
VSchema, materialize (which creates and starts the backfill streams), then
save the source VSchema; `RebuildSrvVSchema` refreshes a cache (no-op). -/
def createLookupVindex (env : Env) (st : St) (keyspace : String) (specs : VSchema)
    (cell tabletTypes : String) (continueAfterCopyWithOwner : Bool) :
    St × Except String Unit :=
  match prepareCreateLookup env st keyspace specs continueAfterCopyWithOwner with
  | .error e => (st, .error e)
  | .ok (ms0, sourceVSchemaOut, targetVSchemaOut) =>
    let st1 :=
      { st with savedVSchemas :=
          assocSet st.savedVSchemas ms0.targetKeyspace targetVSchemaOut }
    let ms := { ms0 with cell := cell, tabletTypes := tabletTypes }
    match materializeOp env st1 ms with
    | (st2, .error e) => (st2, .error e)
    | (st2, .ok _) =>
      ({ st2 with
          savedVSchemas := assocSet st2.savedVSchemas keyspace sourceVSchemaOut },
       .ok ())

/-! ## ExternalizeVindex (source lines 1104–1216) -/

/-- The resolution stage of `ExternalizeVindex` (source lines 1105–1127):
split the qualified vindex name, fetch the source VSchema and the vindex,
parse the backing-table parameter, derive the workflow name
(`targetTableName + "_vdx"`), and resolve the target keyspace's shards. -/
structure ExtResolved where
  sourceKeyspace : String
  vindexName : String
  vindex : VindexSpec
  sourceVSchema : VSchema
  targetKeyspace : String
  targetTableName : String
  workflow : String
  targetShards : List ShardDef
deriving DecidableEq

/-- See `ExtResolved`. -/
def externalizeResolve (env : Env) (st : St) (qualifiedVindexName : String) :
    Except String ExtResolved :=
  match goSplit qualifiedVindexName '.' with
  | [sourceKeyspace, vindexName] =>
    match getVSchema st sourceKeyspace with
    | .error e => .error e
    | .ok sourceVSchema =>
      match assocGet sourceVSchema.vindexes vindexName with
      | none => .error ("vindex " ++ qualifiedVindexName ++ " not found in vschema")
      | some sourceVindex =>
        match parseTable (paramsGet sourceVindex.params "table") with
        | none => .error ("vindex table name must be in the form keyspace.table. Got: " ++
                          paramsGet sourceVindex.params "table")
        | some (targetKeyspace, targetTableName) =>
          if targetKeyspace = "" then
            .error ("vindex table name must be in the form keyspace.table. Got: " ++
                    paramsGet sourceVindex.params "table")
          else
            .ok ⟨sourceKeyspace, vindexName, sourceVindex, sourceVSchema,
                 targetKeyspace, targetTableName, targetTableName ++ "_vdx",
                 getServingShards env targetKeyspace⟩
  | _ => .error ("vindex name should be of the form keyspace.vindex: " ++
                 qualifiedVindexName)

/-- The workflow's rows on one target primary (the
`select … where workflow=… and db_name=…` of lines 1152–1156). -/
def streamsOn (st : St) (db workflow : String) : List StreamRow :=
  st.streams.filter (fun r => r.workflow == workflow && r.dbName == db)

/-- The expected-state predicate of `ExternalizeVindex` (source lines
1172–1183): a stream must be Running if the vindex has no owner or the stream
was not configured to stop after copy; otherwise Stopped with a message
indicating copy completion. -/
def expectedStreamState (owner : String) (r : StreamRow) : Bool :=
  if owner == "" || !r.bls.stopAfterCopy then r.state == "Running"
  else r.state == "Stopped" && goContains r.message "Stopped after copy"

/-- One target shard's verification pass (source lines 1147–1186): the first
row outside its expected state fails the shard. -/
def verifyShardStreams (owner workflow : String) (st : St) (shard : ShardDef) :
    Except String Unit :=
  match (streamsOn st shard.dbName workflow).find?
      (fun r => !expectedStreamState owner r) with
  | none => .ok ()
  | some r =>
    if owner == "" || !r.bls.stopAfterCopy then
      .error ("stream " ++ toString r.id ++ " for " ++ shard.keyspace ++ "." ++
              shard.name ++ " is not in Running state: " ++ r.state)
    else
      .error ("stream " ++ toString r.id ++ " for " ++ shard.keyspace ++ "." ++
              shard.name ++ " is not in Stopped after copy state: " ++ r.state ++
              ", " ++ r.message)

/-- The verification fan-out over all target shards, aggregating errors. -/
def verifyAllTargets (owner workflow : String) (st : St) :
    List ShardDef → Except String Unit
  | [] => .ok ()
  | shard :: rest =>
    match verifyShardStreams owner workflow st shard with
    | .error e =>
      match verifyAllTargets owner workflow st rest with
      | .ok _ => .error e
      | .error e2 => .error (e ++ "\n" ++ e2)
    | .ok _ => verifyAllTargets owner workflow st rest

/-- `ExternalizeVindex` (source lines 1104–1216): resolve, verify every
stream's state on every target shard (failing the whole operation on any
violation, mutating nothing), then — only when the vindex has an owner —
delete all of the workflow's rows on every target shard, and in every success
case remove the `write_only` parameter from the vindex and save the source
VSchema. -/
def externalizeVindex (env : Env) (st : St) (qualifiedVindexName : String) :
    St × Except String Unit :=
  match externalizeResolve env st qualifiedVindexName with
  | .error e => (st, .error e)
  | .ok res =>
    match verifyAllTargets res.vindex.owner res.workflow st res.targetShards with
    | .error e => (st, .error e)
    | .ok _ =>
      let st1 := if res.vindex.owner ≠ "" then
          { st with streams := st.streams.filter (fun r =>
              ¬ (r.workflow == res.workflow ∧
                 res.targetShards.any (fun s => s.dbName == r.dbName))) }
        else st
      let newVindex : VindexSpec :=
        { res.vindex with params := res.vindex.params.filter (fun p => p.1 ≠ "write_only") }
      let newVSchema : VSchema :=
        { res.sourceVSchema with
          vindexes := assocSet res.sourceVSchema.vindexes res.vindexName newVindex }
      ({ st1 with
          savedVSchemas := assocSet st1.savedVSchemas res.sourceKeyspace newVSchema },
       .ok ())

/-! # Concrete scenarios used by the claim witnesses and counterexamples -/

/-- A concrete MoveTables materializer: source keyspace split `[-80)`/`[80-)`,
one `[-80)` target shard. -/
def c2mz : Materializer :=
  ⟨{ workflow := "wf", intent := .moveTables, sourceKeyspace := "sks",
     targetKeyspace := "tks", cell := "", tabletTypes := "",
     stopAfterCopy := false, externalCluster := "", sourceTimeZone := "",
     targetTimeZone := "", sourceShards := [],
     tableSettings := [⟨"t", .empty, "copy"⟩] },
   ⟨false, [], []⟩,
   [⟨"sks", "-80", ⟨[], [0x80]⟩, "pA", "dbA"⟩,
    ⟨"sks", "80-", ⟨[0x80], []⟩, "pB", "dbB"⟩],
   [⟨"tks", "-80", ⟨[], [0x80]⟩, "pT", "dbT"⟩], false⟩

/-- The target shard used with `c2mz`. -/
def c2target : ShardDef := ⟨"tks", "-80", ⟨[], [0x80]⟩, "pT", "dbT"⟩

/-- The single row `generateInserts` produces for `c2mz`/`c2target`. -/
def c2rows : List PendingRow :=
  [⟨"wf", ⟨"sks", "-80", [⟨"t", none⟩], false, "", "", ""⟩, "", "",
    "Stopped", .moveTables, false⟩]

/-- A concrete MoveTables invocation with source time zone `"US/Pacific"`. -/
def c9inp : MoveTablesInput :=
  { workflow := "wf", sourceKeyspace := "sks", targetKeyspace := "tks",
    cell := "", tabletTypes := "", tables := ["t"], autoStart := true,
    stopAfterCopy := false, externalCluster := "", dropForeignKeys := false,
    sourceTimeZone := "US/Pacific", sourceShards := [] }

/-- The materializer built from `c9inp` (one full-range source and target
shard, unsharded target VSchema). -/
def c9mz : Materializer :=
  ⟨moveTablesSettings c9inp, ⟨false, [("t", ⟨"", [], none⟩)], []⟩,
   [⟨"sks", "0", ⟨[], []⟩, "pA", "dbA"⟩],
   [⟨"tks", "0", ⟨[], []⟩, "pT", "dbT"⟩], false⟩

/-- The single row `generateInserts` produces for `c9mz`. -/
def c9rows : List PendingRow :=
  [⟨"wf", ⟨"sks", "0", [⟨"t", some ⟨[.star], "t", none, []⟩⟩], false, "",
    "US/Pacific", "UTC"⟩, "", "", "Stopped", .moveTables, false⟩]

/-- Is a table setting's target table absent from the shard's current table
list? -/
def absentFrom (targetTables : List String) (ts : TableSetting) : Bool :=
  decide (ts.targetTable ∉ targetTables)

/-- A concrete sharded target VSchema for the C3 witness. -/
def c3vs : VSchema :=
  ⟨true, [("t1", ⟨"", [⟨"hash", "c1", []⟩], none⟩)], [("hash", ⟨"hash", "", []⟩)]⟩

/-- A star-projection source query with no WHERE clause, for the C3 witness. -/
def c3sel : Select := ⟨[.star], "t1", none, []⟩

/-- The owned lookup vindex of the C6 witness scenario. -/
def c6vindex : VindexSpec :=
  ⟨"lookup_unique", "owner_t",
   [("table", "tks.lkp_table"), ("write_only", "true"), ("from", "c1"),
    ("to", "c2")]⟩

/-- The source VSchema of the C6 witness scenario. -/
def c6vschema : VSchema := ⟨false, [], [("lkp", c6vindex)]⟩

/-- The single target shard of the C6 witness scenario. -/
def c6shard : ShardDef := ⟨"tks", "0", ⟨[], []⟩, "pT", "db_t0"⟩

/-- The environment of the C6 witness scenario. -/
def c6env : Env :=
  { servingShards := [("tks", [c6shard])], tabletSchemas := [],
    tabletJournals := [], tzProbeOk := true, stripC := fun s => .ok s,
    stripFK := fun s => .ok s, chooseVindexForType := fun _ => .ok "xxhash",
    vindexParamsOk := fun _ _ => .ok () }

/-- The state of the C6 witness scenario: one backfill stream row, stopped
after copy, plus an unrelated workflow's row. -/
def c6st : St :=
  { routingRules := [], savedVSchemas := [("src", c6vschema)],
    appliedSchemaChanges := [],
    streams :=
      [⟨1, "lkp_table_vdx", ⟨"src", "0", [], true, "", "", ""⟩, "", "",
        "Stopped", "Stopped after copy", "db_t0", .createLookupIndex, false⟩,
       ⟨2, "other_wf", ⟨"src", "0", [], false, "", "", ""⟩, "", "",
        "Running", "", "db_t0", .moveTables, false⟩] }

/-- The resolution `externalizeResolve` produces in the C6 witness scenario. -/
def c6res : ExtResolved :=
  ⟨"src", "lkp", c6vindex, c6vschema, "tks", "lkp_table", "lkp_table_vdx",
   [c6shard]⟩

/-- The source shard of the C1 scenario. -/
def c1src : ShardDef := ⟨"lks", "0", ⟨[], []⟩, "src-0", "vt_lks"⟩

/-- The target shard of the C1 scenario. -/
def c1tgt : ShardDef := ⟨"tks", "0", ⟨[], []⟩, "tgt-0", "vt_tks"⟩

/-- The C1 scenario environment: the source primary already holds a journal
entry for the MigrationID this invocation will compute (`"0:1"` being the
shard:id string of the stream the invocation creates). -/
def c1env : Env :=
  { servingShards := [("lks", [c1src]), ("tks", [c1tgt])]
    tabletSchemas := [("src-0", [("customer", ⟨"create table customer", []⟩)]),
                      ("tgt-0", [("customer", ⟨"create table customer", []⟩)])]
    tabletJournals := [("src-0", [getMigrationID "tks" ["0:1"]])]
    tzProbeOk := true
    stripC := fun s => .ok s
    stripFK := fun s => .ok s
    chooseVindexForType := fun _ => .ok "xxhash"
    vindexParamsOk := fun _ _ => .ok () }

/-- The C1 scenario initial state: no streams, no routing rules. -/
def c1st : St :=
  { routingRules := []
    savedVSchemas := [("tks", ⟨false, [], []⟩), ("lks", ⟨false, [], []⟩)]
    appliedSchemaChanges := []
    streams := [] }

/-- The C1 scenario invocation. -/
def c1inp : MoveTablesInput :=
  { workflow := "wf", sourceKeyspace := "lks", targetKeyspace := "tks"
    cell := "", tabletTypes := "", tables := ["customer"]
    autoStart := true, stopAfterCopy := false, externalCluster := ""
    dropForeignKeys := false, sourceTimeZone := "", sourceShards := [] }

/-- The target VSchema after stage 1 added table `customer`. -/
def c1vs1 : VSchema := ⟨false, [("customer", ⟨"", [], none⟩)], []⟩

/-- The state after stage 1 of the C1 scenario (routing rules and target
VSchema saved). -/
def c1st1 : St :=
  { routingRules :=
      [("customer", ["lks.customer"]), ("customer@replica", ["lks.customer"]),
       ("customer@rdonly", ["lks.customer"]), ("tks.customer", ["lks.customer"]),
       ("tks.customer@replica", ["lks.customer"]),
       ("tks.customer@rdonly", ["lks.customer"]),
       ("lks.customer@replica", ["lks.customer"]),
       ("lks.customer@rdonly", ["lks.customer"])]
    savedVSchemas := [("tks", c1vs1), ("lks", ⟨false, [], []⟩)]
    appliedSchemaChanges := []
    streams := [] }

/-- The materializer of the C1 scenario. -/
def c1mz : Materializer :=
  ⟨moveTablesSettings c1inp, c1vs1, [c1src], [c1tgt], false⟩

/-- The stream row the C1 invocation creates before its journal check. -/
def c1row : StreamRow :=
  ⟨1, "wf", ⟨"lks", "0", [⟨"customer", some ⟨[.star], "customer", none, []⟩⟩],
    false, "", "", ""⟩, "", "", "Stopped", "", "vt_tks", .moveTables, false⟩

/-- The state after stream creation in the C1 scenario. -/
def c1st2 : St := { c1st1 with streams := [c1row] }

/-- First source shard of the two-source-shard C1 scenario. -/
def c1srcA : ShardDef := ⟨"lks", "-80", ⟨[], [128]⟩, "src-a", "vt_lks"⟩

/-- Second (last-checked) source shard of the two-source-shard C1 scenario. -/
def c1srcB : ShardDef := ⟨"lks", "80-", ⟨[128], []⟩, "src-b", "vt_lks"⟩

/-- The two-source-shard C1 environment: only the *first* source shard's
primary holds a journal entry for the MigrationID this invocation will
compute (`"0:1"` and `"0:2"` being the shard:id strings of the two streams
the invocation creates). -/
def c1benv : Env :=
  { servingShards := [("lks", [c1srcA, c1srcB]), ("tks", [c1tgt])]
    tabletSchemas := [("src-a", [("customer", ⟨"create table customer", []⟩)]),
                      ("tgt-0", [("customer", ⟨"create table customer", []⟩)])]
    tabletJournals := [("src-a", [getMigrationID "tks" ["0:1", "0:2"]])]
    tzProbeOk := true
    stripC := fun s => .ok s
    stripFK := fun s => .ok s
    chooseVindexForType := fun _ => .ok "xxhash"
    vindexParamsOk := fun _ _ => .ok () }

/-- The materializer of the two-source-shard C1 scenario. -/
def c1bmz : Materializer :=
  ⟨moveTablesSettings c1inp, c1vs1, [c1srcA, c1srcB], [c1tgt], false⟩

/-- The stream row the two-source-shard C1 invocation creates for the first
source shard. -/
def c1browA : StreamRow :=
  ⟨1, "wf", ⟨"lks", "-80", [⟨"customer", some ⟨[.star], "customer", none, []⟩⟩],
    false, "", "", ""⟩, "", "", "Stopped", "", "vt_tks", .moveTables, false⟩

/-- The stream row the two-source-shard C1 invocation creates for the second
source shard. -/
def c1browB : StreamRow :=
  ⟨2, "wf", ⟨"lks", "80-", [⟨"customer", some ⟨[.star], "customer", none, []⟩⟩],
    false, "", "", ""⟩, "", "", "Stopped", "", "vt_tks", .moveTables, false⟩

/-- The state after stream creation in the two-source-shard C1 scenario. -/
def c1bst2 : St := { c1st1 with streams := [c1browA, c1browB] }

/-- A pre-existing row of workflow `wf` on the target primary, for the C5
counterexample. -/
def c5row : StreamRow :=
  ⟨7, "wf", ⟨"lks", "0", [], false, "", "", ""⟩, "", "", "Running", "",
   "vt_tks", .moveTables, false⟩

/-- The C5 initial state: same as `c1st` but the target keyspace already has
a `wf` workflow. -/
def c5st : St := { c1st with streams := [c5row] }

/-- The state after stage 1 of the C5 scenario. -/
def c5st1 : St := { c1st1 with streams := [c5row] }

/-- A two-vindex spec for the C7 witness. -/
def c7specs1 : VSchema :=
  ⟨false, [], [("a", ⟨"lookup_unique", "", []⟩), ("b", ⟨"lookup_unique", "", []⟩)]⟩

/-- A two-table spec for the C7 witness. -/
def c7specs2 : VSchema :=
  ⟨false, [("t1", ⟨"", [], none⟩), ("t2", ⟨"", [], none⟩)],
   [("lkp", ⟨"lookup_unique", "", [("table", "k.t"), ("from", "a"), ("to", "b")]⟩)]⟩

/-- A non-lookup vindex for the C7 witness. -/
def c7vindex3 : VindexSpec := ⟨"hash", "", []⟩

/-- A spec naming the non-lookup vindex `c7vindex3`. -/
def c7specs3 : VSchema := ⟨false, [], [("h", c7vindex3)]⟩

/-- A unique lookup vindex with two `from` columns, for the C7 witness. -/
def c7vindex4 : VindexSpec :=
  ⟨"lookup_unique", "", [("table", "k.t"), ("from", "a,b"), ("to", "c")]⟩

/-- A spec naming `c7vindex4`. -/
def c7specs4 : VSchema := ⟨false, [], [("lkp", c7vindex4)]⟩

/-- A non-unique lookup vindex with one `from` column, for the C7 witness. -/
def c7vindex5 : VindexSpec :=
  ⟨"lookup", "", [("table", "k.t"), ("from", "a"), ("to", "c")]⟩

/-- A spec naming `c7vindex5`. -/
def c7specs5 : VSchema := ⟨false, [], [("lkp", c7vindex5)]⟩

/-- A valid unique lookup vindex for the C7 witness's mismatch case. -/
def c7vindex6 : VindexSpec :=
  ⟨"lookup_unique", "users", [("table", "k.t"), ("from", "a"), ("to", "c")]⟩

/-- A spec whose table's column-vindex binding names a vindex other than the
specified one. -/
def c7specs6 : VSchema :=
  ⟨false, [("users", ⟨"", [⟨"other", "email", []⟩], none⟩)],
   [("lkpvdx", c7vindex6)]⟩

/-- The lookup vindex of the C10 witness scenario: a unique lookup on
`users.email`, backed by `lookupks.email_lookup`. -/
def c10vindex : VindexSpec :=
  ⟨"lookup_unique", "users",
   [("table", "lookupks.email_lookup"), ("from", "email"), ("to", "keyspace_id")]⟩

/-- The CreateLookupVindex specs of the C10 witness scenario. -/
def c10specs : VSchema :=
  ⟨false, [("users", ⟨"", [⟨"lkpvdx", "email", []⟩], none⟩)],
   [("lkpvdx", c10vindex)]⟩

/-- The source keyspace's VSchema in the C10 witness scenario. -/
def c10srcvs : VSchema :=
  ⟨true, [("users", ⟨"", [⟨"hash", "id", []⟩], none⟩)],
   [("hash", ⟨"hash", "", []⟩)]⟩

/-- The single serving shard of the C10 source keyspace. -/
def c10shard : ShardDef := ⟨"sales", "0", ⟨[], []⟩, "pS", "vt_sales"⟩

/-- The schema of `users` on the source primary in the C10 scenario. -/
def c10usersDef : TableDef :=
  ⟨"CREATE TABLE `users` (\n  `id` bigint AUTO_INCREMENT,\n  `email` varchar(128) DEFAULT NULL,\n  PRIMARY KEY (`id`)\n)",
   [("id", "bigint"), ("email", "varchar(128)")]⟩

/-- The environment of the C10 witness scenario. -/
def c10env : Env :=
  { servingShards := [("sales", [c10shard])],
    tabletSchemas := [("pS", [("users", c10usersDef)])],
    tabletJournals := [], tzProbeOk := true, stripC := fun s => .ok s,
    stripFK := fun s => .ok s, chooseVindexForType := fun _ => .ok "xxhash",
    vindexParamsOk := fun _ _ => .ok () }

/-- The state of the C10 witness scenario: a sharded source keyspace and an
unsharded target keyspace. -/
def c10st : St :=
  { routingRules := [],
    savedVSchemas := [("sales", c10srcvs), ("lookupks", ⟨false, [], []⟩)],
    appliedSchemaChanges := [], streams := [] }

/-- The Materialize settings the C10 preparation produces. -/
def c10ms : MatSettings :=
  match prepareCreateLookup c10env c10st "sales" c10specs false with
  | .ok (ms, _, _) => ms
  | .error _ => ⟨"", .custom, "", "", "", "", false, "", "", "", [], []⟩

/-- The merged source VSchema the C10 preparation produces. -/
def c10svs : VSchema :=
  match prepareCreateLookup c10env c10st "sales" c10specs false with
  | .ok (_, svs, _) => svs
  | .error _ => ⟨false, [], []⟩

/-- The target VSchema the C10 preparation produces. -/
def c10tvs : VSchema :=
  match prepareCreateLookup c10env c10st "sales" c10specs false with
  | .ok (_, _, tvs) => tvs
  | .error _ => ⟨false, [], []⟩

/-! # Helper lemmas -/

theorem sortStrings_eq_of_perm {l₁ l₂ : List String} (h : l₁.Perm l₂) :
    sortStrings l₁ = sortStrings l₂ :=
  List.eq_of_perm_of_sorted
    ((List.perm_insertionSort _ _).trans (h.trans (List.perm_insertionSort _ _).symm))
    (List.sorted_insertionSort _ _) (List.sorted_insertionSort _ _)

/-! # Claim C4 — MigrationID invariance

Permutation invariance holds (the list is sorted before hashing), so
`getMigrationID` is a function of the keyspace and the *multiset* of
shard-stream strings.  It is, however, not a function of the *set* of strings:
duplicates are each hashed, so `["a","a"]` and `["a"]` — equal as sets —
produce different ids.  The claim is corrected from "set" to "multiset". -/

/-- **C4** (counterexample): `getMigrationID` is not a function of the *set*
of strings in `S`: the lists `["a","a"]` and `["a"]` have the same set of
elements but different migration ids. -/
theorem C4_migrationID_not_set_function :
    (["a", "a"] : List String).toFinset = (["a"] : List String).toFinset ∧
    getMigrationID "k" ["a", "a"] ≠ getMigrationID "k" ["a"] := by
  decide

/-- **C4** (amended): for every target keyspace `ks` and shard-stream lists
`S`, `P`, if `P` is a permutation of `S` then
`getMigrationID ks S = getMigrationID ks P`; the id is a deterministic
function of `ks` and the multiset of strings in `S` (sorted before hashing). -/
theorem C4_migrationID_perm_invariant (ks : String) (S P : List String)
    (h : S.Perm P) : getMigrationID ks S = getMigrationID ks P := by
  unfold getMigrationID
  rw [sortStrings_eq_of_perm h]

/-- Witness for C4: a concrete permutation pair. -/
theorem C4_migrationID_perm_invariant_witness :
    (["b", "a"] : List String).Perm ["a", "b"] ∧
    getMigrationID "k" ["b", "a"] = getMigrationID "k" ["a", "b"] :=
  ⟨by decide, C4_migrationID_perm_invariant "k" ["b", "a"] ["a", "b"] (by decide)⟩

/-- Every row emitted by the source-shard loop of `generateInserts` comes from
a listed source shard, carries the settings' metadata verbatim, is created in
state `Stopped`, and — for MoveTables intent — only exists when the source
shard's key range intersects the target shard's. -/
theorem generateInsertRows_mem (mz : Materializer) (t : ShardDef) :
    ∀ (shards : List ShardDef) (rows : List PendingRow),
      generateInsertRows mz t shards = .ok rows →
      ∀ r ∈ rows, ∃ s, s ∈ shards ∧ ∃ rules,
        generateRulesForTables mz.targetVSchema mz.ms.targetKeyspace
          mz.ms.tableSettings = .ok rules ∧
        r = ⟨mz.ms.workflow,
             ⟨mz.ms.sourceKeyspace, s.name, rules, mz.ms.stopAfterCopy,
              mz.ms.externalCluster, mz.ms.sourceTimeZone, mz.ms.targetTimeZone⟩,
             mz.ms.cell, mz.ms.tabletTypes, "Stopped", mz.ms.intent,
             mz.isPartialWf⟩ ∧
        (mz.ms.intent = .moveTables →
          keyRangesIntersect s.keyRange t.keyRange = true)
  | [], rows, h, r, hr => by
    rw [generateInsertRows] at h
    cases h
    simp at hr
  | s :: rest, rows, h, r, hr => by
    rw [generateInsertRows] at h
    split at h
    case isTrue hcond =>
      obtain ⟨s', hs', hrest⟩ :=
        generateInsertRows_mem mz t rest rows h r hr
      exact ⟨s', List.mem_cons_of_mem _ hs', hrest⟩
    case isFalse hcond =>
      split at h
      · cases h
      case h_2 rules hrules =>
        split at h
        · cases h
        case h_2 rows' hrows' =>
          cases h
          rcases List.mem_cons.mp hr with h1 | h2
          · subst h1
            refine ⟨s, List.mem_cons_self _ _, rules, hrules, rfl, ?_⟩
            intro hintent
            by_contra hni
            exact hcond ⟨hintent, hni⟩
          · obtain ⟨s', hs', hrest⟩ :=
              generateInsertRows_mem mz t rest rows' hrows' r h2
            exact ⟨s', List.mem_cons_of_mem _ hs', hrest⟩

/-! # Claim C2 — MoveTables stream rows only for intersecting shard pairs -/

/-- **C2**: for a workflow with MoveTables intent, a stream row is generated
for a (source shard, target shard) pair only if the two shards' key ranges
intersect; for every source shard whose key range is disjoint from the target
shard's, zero rows are produced (shard names being unique within a keyspace). -/
theorem C2_stream_rows_only_for_intersecting_pairs (mz : Materializer)
    (targetShard : ShardDef) (rows : List PendingRow)
    (hintent : mz.ms.intent = .moveTables)
    (hok : generateInserts mz targetShard = .ok rows) :
    (∀ r ∈ rows, ∃ s, s ∈ mz.sourceShards ∧ r.bls.shard = s.name ∧
        keyRangesIntersect s.keyRange targetShard.keyRange = true) ∧
    ((mz.sourceShards.map ShardDef.name).Nodup →
      ∀ s ∈ mz.sourceShards,
        keyRangesIntersect s.keyRange targetShard.keyRange = false →
        rows.countP (fun r => r.bls.shard == s.name) = 0) := by
  constructor
  · intro r hr
    obtain ⟨s, hs, rules, _, hreq, hint⟩ :=
      generateInsertRows_mem mz targetShard mz.sourceShards rows hok r hr
    exact ⟨s, hs, by rw [hreq], hint hintent⟩
  · intro hnd s hs hdisj
    rw [List.countP_eq_zero]
    intro r hr hpred
    obtain ⟨s', hs', rules, _, hreq, hint⟩ :=
      generateInsertRows_mem mz targetShard mz.sourceShards rows hok r hr
    have hname : s'.name = s.name := by
      rw [hreq] at hpred
      simpa using hpred
    have hss : s' = s := List.inj_on_of_nodup_map hnd hs' hs hname
    rw [hss] at hint
    rw [hint hintent] at hdisj
    cases hdisj

/-- Witness for C2: on `c2mz`, exactly one row is produced, from the
intersecting source shard, and zero rows for the disjoint `[80-)` shard. -/
theorem C2_stream_rows_only_for_intersecting_pairs_witness :
    c2mz.ms.intent = .moveTables ∧
    generateInserts c2mz c2target = .ok c2rows ∧
    (∀ r ∈ c2rows, ∃ s, s ∈ c2mz.sourceShards ∧ r.bls.shard = s.name ∧
        keyRangesIntersect s.keyRange c2target.keyRange = true) ∧
    c2rows.countP (fun r => r.bls.shard == "80-") = 0 ∧ c2rows.length = 1 :=
  ⟨rfl, by decide, (C2_stream_rows_only_for_intersecting_pairs c2mz c2target
      c2rows rfl (by decide)).1, by decide, by decide⟩

/-! # Claim C9 — time-zone handling of MoveTables -/

/-- **C9**: for every MoveTables invocation with a non-empty source time zone
the produced settings set the target time zone to the literal `"UTC"` and
every generated stream row's source descriptor carries that source/target
time-zone pair; with an empty source time zone both fields stay empty. -/
theorem C9_moveTables_timezones (inp : MoveTablesInput) (mz : Materializer)
    (shard : ShardDef) (rows : List PendingRow)
    (hmz : mz.ms = moveTablesSettings inp)
    (hok : generateInserts mz shard = .ok rows) :
    ((moveTablesSettings inp).sourceTimeZone = inp.sourceTimeZone ∧
     (inp.sourceTimeZone ≠ "" → (moveTablesSettings inp).targetTimeZone = "UTC") ∧
     (inp.sourceTimeZone = "" → (moveTablesSettings inp).targetTimeZone = "")) ∧
    ∀ r ∈ rows, r.bls.sourceTimeZone = inp.sourceTimeZone ∧
      r.bls.targetTimeZone = (if inp.sourceTimeZone ≠ "" then "UTC" else "") := by
  refine ⟨⟨rfl, fun h => by simp [moveTablesSettings, h],
          fun h => by simp [moveTablesSettings, h]⟩, ?_⟩
  intro r hr
  obtain ⟨s, hs, rules, _, hreq, _⟩ :=
    generateInsertRows_mem mz shard mz.sourceShards rows hok r hr
  rw [hreq]
  simp [hmz, moveTablesSettings]

/-- Witness for C9: with source time zone `"US/Pacific"`, the settings carry
target time zone `"UTC"` and so does the generated row's source descriptor. -/
theorem C9_moveTables_timezones_witness :
    c9mz.ms = moveTablesSettings c9inp ∧
    generateInserts c9mz ⟨"tks", "0", ⟨[], []⟩, "pT", "dbT"⟩ = .ok c9rows ∧
    (moveTablesSettings c9inp).targetTimeZone = "UTC" ∧
    ∀ r ∈ c9rows, r.bls.sourceTimeZone = "US/Pacific" ∧
      r.bls.targetTimeZone = "UTC" := by
  refine ⟨rfl, by decide, by decide, ?_⟩
  intro r hr
  have := (C9_moveTables_timezones c9inp c9mz ⟨"tks", "0", ⟨[], []⟩, "pT", "dbT"⟩
    c9rows rfl (by decide)).2 r hr
  simpa using this

/-! # Claim C8 — the schema deployer never touches existing tables -/

theorem deployShardDDLs_filter (stripC stripFK : String → Except String String)
    (sourceDDLs : List (String × String)) (targetTables : List String) :
    ∀ settings, deployShardDDLs stripC stripFK sourceDDLs targetTables settings =
      deployShardDDLs stripC stripFK sourceDDLs targetTables
        (settings.filter (absentFrom targetTables))
  | [] => rfl
  | ts :: rest => by
    by_cases h : ts.targetTable ∈ targetTables
    · rw [deployShardDDLs, if_pos h, List.filter_cons,
        if_neg (by simp [absentFrom, h]),
        deployShardDDLs_filter stripC stripFK sourceDDLs targetTables rest]
    · rw [List.filter_cons, if_pos (by simp [absentFrom, h]),
        deployShardDDLs, deployShardDDLs, if_neg h, if_neg h,
        ← deployShardDDLs_filter stripC stripFK sourceDDLs targetTables rest]

theorem deployShardDDLs_length (stripC stripFK : String → Except String String)
    (sourceDDLs : List (String × String)) (targetTables : List String) :
    ∀ settings ddls,
      deployShardDDLs stripC stripFK sourceDDLs targetTables settings = .ok ddls →
      ddls.length = (settings.filter (absentFrom targetTables)).length
  | [], ddls, h => by cases h; rfl
  | ts :: rest, ddls, h => by
    rw [deployShardDDLs] at h
    split at h
    case isTrue hc =>
      rw [List.filter_cons, if_neg (by simp [absentFrom, hc])]
      exact deployShardDDLs_length stripC stripFK sourceDDLs targetTables rest ddls h
    case isFalse hc =>
      rw [List.filter_cons, if_pos (by simp [absentFrom, hc])]
      split at h
      · cases h
      case h_2 d hd =>
        split at h
        · cases h
        case h_2 ds hds =>
          cases h
          simp [deployShardDDLs_length stripC stripFK sourceDDLs targetTables rest ds hds]

/-- **C8**: for every target shard, the schema deployer only issues DDL for
target tables absent from the shard's current table list and leaves every
table already present untouched: the computed DDL batch is unchanged if the
settings whose target tables are present are dropped, it is empty when every
target table is already present (so no schema-change RPC is issued at all),
and on success there is exactly one DDL statement per absent target table. -/
theorem C8_schema_deployer_skips_present_tables
    (stripC stripFK : String → Except String String)
    (sourceDDLs : List (String × String)) (targetTables : List String)
    (settings : List TableSetting) :
    deployShardDDLs stripC stripFK sourceDDLs targetTables settings =
      deployShardDDLs stripC stripFK sourceDDLs targetTables
        (settings.filter (absentFrom targetTables)) ∧
    ((∀ ts ∈ settings, ts.targetTable ∈ targetTables) →
      deployShardDDLs stripC stripFK sourceDDLs targetTables settings = .ok []) ∧
    (∀ ddls, deployShardDDLs stripC stripFK sourceDDLs targetTables settings = .ok ddls →
      ddls.length = (settings.filter (absentFrom targetTables)).length) := by
  refine ⟨deployShardDDLs_filter stripC stripFK sourceDDLs targetTables settings,
    fun hall => ?_, fun ddls h =>
    deployShardDDLs_length stripC stripFK sourceDDLs targetTables settings ddls h⟩
  rw [deployShardDDLs_filter stripC stripFK sourceDDLs targetTables settings]
  have hnil : settings.filter (absentFrom targetTables) = [] := by
    rw [List.filter_eq_nil_iff]
    intro ts hts
    simp [absentFrom, hall ts hts]
  rw [hnil]
  rfl

/-- Witness for C8: with table `t1` already present on the shard and `t2`
absent, only `t2`'s literal CREATE DDL is issued. -/
theorem C8_schema_deployer_skips_present_tables_witness :
    deployShardDDLs (fun s => .ok s) (fun s => .ok s) [] ["t1"]
      [⟨"t1", .empty, "create table t1 (id int)"⟩,
       ⟨"t2", .empty, "create table t2 (id int)"⟩] =
      .ok ["create table t2 (id int)"] ∧
    (["create table t2 (id int)"] : List String).length =
      (([⟨"t1", .empty, "create table t1 (id int)"⟩,
         ⟨"t2", .empty, "create table t2 (id int)"⟩] : List TableSetting).filter
        (absentFrom ["t1"])).length :=
  ⟨by decide,
   (C8_schema_deployer_skips_present_tables (fun s => .ok s) (fun s => .ok s)
      [] ["t1"] _).2.2 _ (by decide)⟩

/-! # Claim C3 — the injected range predicate

The injection itself behaves as claimed: on a sharded, non-reference target
table with a non-empty source query, the generated filter's WHERE clause is
the `in_keyrange` predicate referencing the table's primary vindex, conjoined
(as left conjunct) with the pre-existing WHERE clause, or standing alone when
there was none.  "Exactly one range predicate" fails, however, when the
source query itself already contains an `in_keyrange` predicate referencing
that vindex: the generated filter then contains one more than the source
query, not exactly one. -/

theorem matchColInSelect_col (col : String) :
    ∀ (l : List SelectExpr) (e : Expr),
      matchColInSelect col l = .ok e → ∃ c, e = .col c
  | [], _, h => by cases h
  | .star :: _, e, h => by
    rw [matchColInSelect] at h
    cases h
    exact ⟨col, rfl⟩
  | .otherSel tag :: _, e, h => by
    rw [matchColInSelect] at h
    cases h
  | .aliased ex asName :: rest, e, h => by
    rw [matchColInSelect] at h
    split at h
    · exact matchColInSelect_col col rest e h
    case h_2 m hm =>
      split at h
      · cases ex with
        | col c =>
          rw [colExprOnly] at h
          cases h
          exact ⟨c, rfl⟩
        | lit s => cases h
        | func f args => cases h
        | andE l r => cases h
        | otherE t => cases h
      · exact matchColInSelect_col col rest e h

theorem countIKRList_append (v : String) :
    ∀ a b, countIKRList v (a ++ b) = countIKRList v a + countIKRList v b
  | [], b => by simp [countIKRList]
  | e :: a, b => by
    rw [List.cons_append, countIKRList, countIKRList, countIKRList_append v a b,
      Nat.add_assoc]

theorem matchColsInSelect_count (v : String) (selExprs : List SelectExpr) :
    ∀ (cols : List String) (es : List Expr),
      matchColsInSelect selExprs cols = .ok es → countIKRList v es = 0
  | [], es, h => by cases h; rfl
  | c :: cs, es, h => by
    rw [matchColsInSelect] at h
    split at h
    · cases h
    case h_2 colE hcolE =>
      split at h
      · cases h
      case h_2 colEs hcolEs =>
        cases h
        obtain ⟨cc, hcc⟩ := matchColInSelect_col c selExprs colE hcolE
        rw [countIKRList, hcc, matchColsInSelect_count v selExprs cs colEs hcolEs]
        rfl

/-- **C3** (counterexample): a source query whose WHERE clause already
contains an `in_keyrange` predicate referencing the target table's primary
vindex (`tks.hash`) yields a generated filter with *two* such predicates, not
exactly one. -/
theorem C3_two_range_predicates_counterexample :
    generateRuleForTable
        ⟨true, [("t1", ⟨"", [⟨"hash", "c1", []⟩], none⟩)],
         [("hash", ⟨"hash", "", []⟩)]⟩ "tks"
        ⟨"t1", .selectStmt ⟨[.aliased (.col "c1") ""], "t1",
          some (.func "in_keyrange" [.col "c1", .lit "tks.hash", .lit "-80"]), []⟩,
         "copy"⟩ =
      .ok ⟨"t1", some ⟨[.aliased (.col "c1") ""], "t1",
        some (.andE
          (.func "in_keyrange" [.col "c1", .lit "tks.hash", .lit keyrangePlaceholder])
          (.func "in_keyrange" [.col "c1", .lit "tks.hash", .lit "-80"])), []⟩⟩ ∧
    countIKRSelect "tks.hash"
      ⟨[.aliased (.col "c1") ""], "t1",
       some (.andE
         (.func "in_keyrange" [.col "c1", .lit "tks.hash", .lit keyrangePlaceholder])
         (.func "in_keyrange" [.col "c1", .lit "tks.hash", .lit "-80"])), []⟩ = 2 ∧
    findBestColVindex ((assocGet
        ([("t1", ⟨"", [⟨"hash", "c1", []⟩], none⟩)] : List (String × TableSpec))
        "t1").getD default) = .ok ⟨"hash", ["c1"]⟩ := by
  decide

/-- **C3** (amended): for every table setting with a non-empty source query
whose target keyspace is sharded and whose target table is not a reference
table, the generated filter's WHERE clause is the `in_keyrange` predicate
referencing that table's primary vindex, combined with the query's
pre-existing WHERE clause via logical AND (left conjunct), or standing as the
sole WHERE clause when the query had none; consequently the filter contains
exactly one more `in_keyrange` predicate referencing that vindex than the
source query did (hence exactly one whenever the source query contained
none). -/
theorem C3_filter_injects_vindex_predicate (targetVSchema : VSchema)
    (targetKeyspace : String) (ts : TableSetting) (sel : Select) (rule : Rule)
    (cv : ColVindexRes)
    (hsrc : ts.sourceExpression = .selectStmt sel)
    (hsh : targetVSchema.sharded = true)
    (href : ((assocGet targetVSchema.tables ts.targetTable).getD default).typ ≠
      "reference")
    (hcv : findBestColVindex
      ((assocGet targetVSchema.tables ts.targetTable).getD default) = .ok cv)
    (hok : generateRuleForTable targetVSchema targetKeyspace ts = .ok rule) :
    ∃ ikrArgs,
      Expr.lit (targetKeyspace ++ "." ++ cv.name) ∈ ikrArgs ∧
      countIKRList (targetKeyspace ++ "." ++ cv.name) ikrArgs = 0 ∧
      rule.filter = some { sel with whereE := some (
        match sel.whereE with
        | some w => .andE (.func "in_keyrange" ikrArgs) w
        | none => .func "in_keyrange" ikrArgs) } ∧
      countIKRSelect (targetKeyspace ++ "." ++ cv.name)
        { sel with whereE := some (
          match sel.whereE with
          | some w => .andE (.func "in_keyrange" ikrArgs) w
          | none => .func "in_keyrange" ikrArgs) } =
        countIKRSelect (targetKeyspace ++ "." ++ cv.name) sel + 1 := by
  rw [generateRuleForTable, hsrc] at hok
  dsimp only at hok
  rw [if_pos (by simp [hsh, href])] at hok
  rw [hcv] at hok
  dsimp only at hok
  split at hok
  · cases hok
  case h_2 mappedCols hmapped =>
    cases hok
    refine ⟨mappedCols ++ [Expr.lit (targetKeyspace ++ "." ++ cv.name),
      Expr.lit keyrangePlaceholder], ?_, ?_, rfl, ?_⟩
    · exact List.mem_append_right _ (List.mem_cons_self _ _)
    · rw [countIKRList_append,
        matchColsInSelect_count (targetKeyspace ++ "." ++ cv.name) _ _ _ hmapped]
      rfl
    · have hargs0 : countIKRList (targetKeyspace ++ "." ++ cv.name)
          (mappedCols ++ [Expr.lit (targetKeyspace ++ "." ++ cv.name),
            Expr.lit keyrangePlaceholder]) = 0 := by
        rw [countIKRList_append,
          matchColsInSelect_count (targetKeyspace ++ "." ++ cv.name) _ _ _ hmapped]
        rfl
      have hikr : countIKRExpr (targetKeyspace ++ "." ++ cv.name)
          (.func "in_keyrange" (mappedCols ++
            [Expr.lit (targetKeyspace ++ "." ++ cv.name),
             Expr.lit keyrangePlaceholder])) = 1 := by
        rw [countIKRExpr, hargs0,
          if_pos ⟨rfl, List.mem_append_right _ (List.mem_cons_self _ _)⟩]
      cases hw : sel.whereE with
      | none => simp [countIKRSelect, hw, hikr]; omega
      | some w => simp [countIKRSelect, hw, countIKRExpr, hikr]; omega

/-- Witness for C3: on a source query containing no `in_keyrange`, the
generated filter contains exactly one, standing as the sole WHERE clause. -/
theorem C3_filter_injects_vindex_predicate_witness :
    (⟨"t1", .selectStmt c3sel, "copy"⟩ : TableSetting).sourceExpression =
      .selectStmt c3sel ∧
    c3vs.sharded = true ∧
    generateRuleForTable c3vs "tks" ⟨"t1", .selectStmt c3sel, "copy"⟩ =
      .ok ⟨"t1", some ⟨[.star], "t1",
        some (.func "in_keyrange"
          [.col "c1", .lit "tks.hash", .lit keyrangePlaceholder]), []⟩⟩ ∧
    (∃ ikrArgs,
      Expr.lit ("tks" ++ "." ++ (⟨"hash", ["c1"]⟩ : ColVindexRes).name) ∈ ikrArgs ∧
      countIKRList ("tks" ++ "." ++ (⟨"hash", ["c1"]⟩ : ColVindexRes).name) ikrArgs = 0 ∧
      (⟨"t1", some ⟨[.star], "t1",
        some (.func "in_keyrange"
          [.col "c1", .lit "tks.hash", .lit keyrangePlaceholder]), []⟩⟩ : Rule).filter =
        some { c3sel with whereE := some (
          match c3sel.whereE with
          | some w => .andE (.func "in_keyrange" ikrArgs) w
          | none => .func "in_keyrange" ikrArgs) } ∧
      countIKRSelect ("tks" ++ "." ++ (⟨"hash", ["c1"]⟩ : ColVindexRes).name)
        { c3sel with whereE := some (
          match c3sel.whereE with
          | some w => .andE (.func "in_keyrange" ikrArgs) w
          | none => .func "in_keyrange" ikrArgs) } =
        countIKRSelect ("tks" ++ "." ++ (⟨"hash", ["c1"]⟩ : ColVindexRes).name)
          c3sel + 1) :=
  ⟨rfl, rfl, by decide,
   C3_filter_injects_vindex_predicate c3vs "tks" ⟨"t1", .selectStmt c3sel, "copy"⟩
     c3sel _ ⟨"hash", ["c1"]⟩ rfl rfl (by decide) (by decide) (by decide)⟩

/-! # Claim C6 — ExternalizeVindex -/

theorem paramsGet_cons (p : String × String) (ps : List (String × String))
    (k : String) :
    paramsGet (p :: ps) k = if p.1 == k then p.2 else paramsGet ps k := by
  by_cases h : (p.1 == k) = true
  · simp [paramsGet, List.find?, h]
  · rw [Bool.not_eq_true] at h
    simp [paramsGet, List.find?, h]

theorem assocGet_assocSet_self {α : Type} (k : String) (v : α) :
    ∀ m : List (String × α), assocGet (assocSet m k v) k = some v := by
  have hmap : ∀ m : List (String × α),
      m.any (fun p => p.1 == k) = true →
      assocGet (m.map (fun p => if p.1 == k then (k, v) else p)) k = some v := by
    intro m
    induction m with
    | nil => intro h; cases h
    | cons p rest ih =>
      intro h
      rw [List.map_cons]
      by_cases hp : (p.1 == k) = true
      · rw [if_pos hp]
        simp [assocGet, List.find?]
      · rw [if_neg hp]
        have hrest : rest.any (fun p => p.1 == k) = true := by
          rw [List.any_cons] at h
          rcases Bool.or_eq_true_iff.mp h with h1 | h1
          · exact absurd h1 hp
          · exact h1
        rw [assocGet, List.find?]
        rw [Bool.not_eq_true] at hp
        rw [hp]
        exact ih hrest
  intro m
  rw [assocSet]
  split
  case isTrue h => exact hmap m h
  case isFalse h =>
    induction m with
    | nil => simp [assocGet, List.find?]
    | cons p rest ih =>
      rw [List.cons_append, assocGet, List.find?]
      have hp : (p.1 == k) = false := by
        by_contra hc
        rw [Bool.not_eq_false] at hc
        exact h (by rw [List.any_cons, hc, Bool.true_or])
      rw [hp]
      exact ih (fun hc => h (by rw [List.any_cons, hc, Bool.or_true]))

theorem paramsGet_filter_self (k0 : String) :
    ∀ ps : List (String × String),
      paramsGet (ps.filter (fun p => decide (p.1 ≠ k0))) k0 = ""
  | [] => rfl
  | p :: ps => by
    rw [List.filter_cons]
    by_cases hp : p.1 = k0
    · rw [if_neg (by simp [hp])]
      exact paramsGet_filter_self k0 ps
    · rw [if_pos (by simp [hp])]
      rw [paramsGet_cons, if_neg (by simp [hp])]
      exact paramsGet_filter_self k0 ps

theorem paramsGet_filter_other (k0 k : String) (hk : k ≠ k0) :
    ∀ ps : List (String × String),
      paramsGet (ps.filter (fun p => decide (p.1 ≠ k0))) k = paramsGet ps k
  | [] => rfl
  | p :: ps => by
    rw [List.filter_cons]
    by_cases hp : p.1 = k0
    · rw [if_neg (by simp [hp])]
      rw [paramsGet_cons (k := k), if_neg (by simp [hp]; exact fun h => hk h.symm)]
      exact paramsGet_filter_other k0 k hk ps
    · rw [if_pos (by simp [hp])]
      rw [paramsGet_cons, paramsGet_cons]
      by_cases hpk : (p.1 == k) = true
      · rw [if_pos hpk, if_pos hpk]
      · rw [if_neg hpk, if_neg hpk]
        exact paramsGet_filter_other k0 k hk ps

theorem verifyShardStreams_ok_iff (owner workflow : String) (st : St)
    (shard : ShardDef) :
    verifyShardStreams owner workflow st shard = .ok () ↔
    ∀ r ∈ streamsOn st shard.dbName workflow,
      expectedStreamState owner r = true := by
  rw [verifyShardStreams]
  split
  case h_1 hfind =>
    rw [List.find?_eq_none] at hfind
    constructor
    · intro _ r hr
      have := hfind r hr
      simpa using this
    · intro _
      rfl
  case h_2 r hfind =>
    have hmem := List.mem_of_find?_eq_some hfind
    have hbad := List.find?_some hfind
    constructor
    · intro h
      split at h <;> cases h
    · intro hall
      exfalso
      rw [hall r hmem] at hbad
      cases hbad

theorem verifyAllTargets_ok_iff (owner workflow : String) (st : St) :
    ∀ shards : List ShardDef,
      verifyAllTargets owner workflow st shards = .ok () ↔
      ∀ shard ∈ shards, ∀ r ∈ streamsOn st shard.dbName workflow,
        expectedStreamState owner r = true
  | [] => by simp [verifyAllTargets]
  | shard :: rest => by
    rw [verifyAllTargets]
    split
    case h_1 e hv =>
      constructor
      · intro h
        split at h <;> cases h
      · intro hall
        exfalso
        have hok := (verifyShardStreams_ok_iff owner workflow st shard).mpr
          (hall shard (List.mem_cons_self _ _))
        rw [hok] at hv
        cases hv
    case h_2 u hv =>
      rw [verifyAllTargets_ok_iff owner workflow st rest]
      constructor
      · intro hall shard' hs'
        rcases List.mem_cons.mp hs' with h1 | h1
        · subst h1
          exact (verifyShardStreams_ok_iff owner workflow st shard').mp
            (by cases u; exact hv)
        · exact hall shard' h1
      · intro hall shard' hs'
        exact hall shard' (List.mem_cons_of_mem _ hs')

/-- **C6**: `ExternalizeVindex` fails the whole operation when any stream of
the derived workflow on any target shard is outside its expected state
(Running when the vindex has no owner or the stream is not stop-after-copy,
otherwise Stopped with a copy-completion message), deleting nothing in that
case; on success it deletes every stream row of that workflow on every target
shard exactly when the vindex has an owner (leaving them all untouched when
ownerless), and in every success case removes the `write_only` parameter from
the vindex and saves the source VSchema. -/
theorem C6_externalize_vindex (env : Env) (st : St) (q : String)
    (res : ExtResolved)
    (hres : externalizeResolve env st q = .ok res) :
    ((∃ shard ∈ res.targetShards, ∃ r ∈ streamsOn st shard.dbName res.workflow,
        expectedStreamState res.vindex.owner r = false) →
      ∃ e, externalizeVindex env st q = (st, .error e)) ∧
    ((∀ shard ∈ res.targetShards, ∀ r ∈ streamsOn st shard.dbName res.workflow,
        expectedStreamState res.vindex.owner r = true) →
      ∃ st', externalizeVindex env st q = (st', .ok ()) ∧
        (res.vindex.owner ≠ "" → ∀ r,
          r ∈ st'.streams ↔ r ∈ st.streams ∧
            ¬ (r.workflow = res.workflow ∧
               ∃ s ∈ res.targetShards, s.dbName = r.dbName)) ∧
        (res.vindex.owner = "" → st'.streams = st.streams) ∧
        st'.routingRules = st.routingRules ∧
        st'.appliedSchemaChanges = st.appliedSchemaChanges ∧
        (∃ vs', assocGet st'.savedVSchemas res.sourceKeyspace = some vs' ∧
          ∃ v', assocGet vs'.vindexes res.vindexName = some v' ∧
            paramsGet v'.params "write_only" = "" ∧
            ∀ k, k ≠ "write_only" →
              paramsGet v'.params k = paramsGet res.vindex.params k)) := by
  constructor
  · intro ⟨shard, hshard, r, hr, hbad⟩
    rw [externalizeVindex, hres]
    dsimp only
    cases hv : verifyAllTargets res.vindex.owner res.workflow st res.targetShards with
    | ok u =>
      exfalso
      cases u
      have := (verifyAllTargets_ok_iff res.vindex.owner res.workflow st
        res.targetShards).mp hv shard hshard r hr
      rw [this] at hbad
      cases hbad
    | error e =>
      exact ⟨e, rfl⟩
  · intro hall
    have hv : verifyAllTargets res.vindex.owner res.workflow st res.targetShards =
        .ok () := (verifyAllTargets_ok_iff res.vindex.owner res.workflow st
          res.targetShards).mpr hall
    rw [externalizeVindex, hres]
    dsimp only
    rw [hv]
    dsimp only
    refine ⟨_, rfl, ?_, ?_, ?_, ?_, ?_⟩
    · intro hO r
      rw [if_pos hO]
      rw [List.mem_filter]
      simp only [decide_eq_true_eq, beq_iff_eq, List.any_eq_true]
    · intro hO
      rw [if_neg (by simp [hO])]
    · split <;> rfl
    · split <;> rfl
    · refine ⟨_, assocGet_assocSet_self res.sourceKeyspace _ _, _,
        assocGet_assocSet_self res.vindexName _ _, ?_, ?_⟩
      · exact paramsGet_filter_self "write_only" res.vindex.params
      · intro k hk
        exact paramsGet_filter_other "write_only" k hk res.vindex.params

/-- Witness for C6: on an owned vindex whose backfill stream is Stopped after
copy, externalization succeeds, deletes the workflow's rows, and clears
`write_only`. -/
theorem C6_externalize_vindex_witness :
    externalizeResolve c6env c6st "src.lkp" = .ok c6res ∧
    (∀ shard ∈ c6res.targetShards,
      ∀ r ∈ streamsOn c6st shard.dbName c6res.workflow,
        expectedStreamState c6res.vindex.owner r = true) ∧
    (∃ st', externalizeVindex c6env c6st "src.lkp" = (st', .ok ()) ∧
      (c6res.vindex.owner ≠ "" → ∀ r,
        r ∈ st'.streams ↔ r ∈ c6st.streams ∧
          ¬ (r.workflow = c6res.workflow ∧
             ∃ s ∈ c6res.targetShards, s.dbName = r.dbName)) ∧
      (c6res.vindex.owner = "" → st'.streams = c6st.streams) ∧
      st'.routingRules = c6st.routingRules ∧
      st'.appliedSchemaChanges = c6st.appliedSchemaChanges ∧
      (∃ vs', assocGet st'.savedVSchemas c6res.sourceKeyspace = some vs' ∧
        ∃ v', assocGet vs'.vindexes c6res.vindexName = some v' ∧
          paramsGet v'.params "write_only" = "" ∧
          ∀ k, k ≠ "write_only" →
            paramsGet v'.params k = paramsGet c6res.vindex.params k)) :=
  ⟨by decide, by decide,
   (C6_externalize_vindex c6env c6st "src.lkp" c6res (by decide)).2 (by decide)⟩

/-! # Orchestration lemmas (shared by the MoveTables claims) -/

/-- Stage 1 of `MoveTables` only writes routing rules and VSchemas: streams
and the schema-change log are untouched. -/
theorem moveTablesStage1_frame (st : St) (inp : MoveTablesInput) (st1 : St)
    (h : moveTablesStage1 st inp = .ok st1) :
    st1.streams = st.streams ∧
    st1.appliedSchemaChanges = st.appliedSchemaChanges := by
  rw [moveTablesStage1] at h
  split at h
  · cases h
  case h_2 vs0 hvs0 =>
    split at h
    · cases h
    · split at h
      · cases h
      case h_2 vs hvs =>
        split at h <;> cases h <;> exact ⟨rfl, rfl⟩

/-- The schema-deployment fan-out only appends to the schema-change log. -/
theorem deploySchemaAll_frame (env : Env) (mz : Materializer) :
    ∀ (shards : List ShardDef) (st : St),
      (deploySchemaAll env mz st shards).1.streams = st.streams ∧
      (deploySchemaAll env mz st shards).1.routingRules = st.routingRules ∧
      (deploySchemaAll env mz st shards).1.savedVSchemas = st.savedVSchemas
  | [], st => ⟨rfl, rfl, rfl⟩
  | shard :: rest, st => by
    rw [deploySchemaAll]
    split
    · split
      case h_1 st2 u hrec =>
        have := deploySchemaAll_frame env mz rest st
        rw [hrec] at this
        exact this
      case h_2 st2 e hrec =>
        have := deploySchemaAll_frame env mz rest st
        rw [hrec] at this
        exact this
    · exact deploySchemaAll_frame env mz rest st
    · exact deploySchemaAll_frame env mz rest _

/-- Rows instantiated on a target primary keep their pending state. -/
theorem instantiateRows_state (db : String) :
    ∀ (base : Nat) (ps : List PendingRow),
      ∀ r ∈ instantiateRows db base ps, ∃ p, p ∈ ps ∧ r.state = p.state
  | _, [], r, hr => by cases hr
  | base, p :: ps, r, hr => by
    rw [instantiateRows] at hr
    rcases List.mem_cons.mp hr with h1 | h1
    · exact ⟨p, List.mem_cons_self _ _, by rw [h1]⟩
    · obtain ⟨p', hp', hs⟩ := instantiateRows_state db (base + 1) ps r h1
      exact ⟨p', List.mem_cons_of_mem _ hp', hs⟩

/-- Every pending row in the generated insert map is in state `Stopped`. -/
theorem genInsertsMap_stopped (mz : Materializer) :
    ∀ (shards : List ShardDef) (m : List (String × List PendingRow)),
      genInsertsMap mz shards = .ok m →
      ∀ e ∈ m, ∀ p ∈ e.2, p.state = "Stopped"
  | [], m, h, e, he => by cases h; cases he
  | shard :: rest, m, h, e, he => by
    rw [genInsertsMap] at h
    split at h
    · cases h
    case h_2 rows hrows =>
      split at h
      · cases h
      case h_2 m' hm' =>
        cases h
        rcases List.mem_cons.mp he with h1 | h1
        · subst h1
          intro p hp
          obtain ⟨s, _, _, _, hpeq, _⟩ :=
            generateInsertRows_mem mz shard mz.sourceShards rows hrows p hp
          rw [hpeq]
        · exact genInsertsMap_stopped mz rest m' hm' e h1

/-- A successful association-list lookup is a membership. -/
theorem assocGet_mem {α : Type} :
    ∀ (m : List (String × α)) (k : String) (v : α),
      assocGet m k = some v → (k, v) ∈ m := by
  intro m k v h
  rw [assocGet] at h
  cases hf : m.find? (fun p => p.1 == k) with
  | none => rw [hf] at h; cases h
  | some p =>
    rw [hf] at h
    cases h
    have hm := List.mem_of_find?_eq_some hf
    have hk := List.find?_some hf
    simp only [beq_iff_eq] at hk
    have : (k, p.2) = p := by rw [← hk]
    rw [this]
    exact hm

/-- `createStreams` appends rows keeping the pending states, and mutates
nothing else. -/
theorem createStreamsAll_append (m : List (String × List PendingRow))
    (hm : ∀ e ∈ m, ∀ p ∈ e.2, p.state = "Stopped") :
    ∀ (shards : List ShardDef) (st : St),
      ∃ new, (createStreamsAll m st shards).streams = st.streams ++ new ∧
        (∀ r ∈ new, r.state = "Stopped") ∧
        (createStreamsAll m st shards).routingRules = st.routingRules ∧
        (createStreamsAll m st shards).savedVSchemas = st.savedVSchemas ∧
        (createStreamsAll m st shards).appliedSchemaChanges =
          st.appliedSchemaChanges
  | [], st => by
    refine ⟨[], ?_, ?_, rfl, rfl, rfl⟩
    · rw [createStreamsAll, List.append_nil]
    · intro r hr
      cases hr
  | shard :: rest, st => by
    rw [createStreamsAll]
    obtain ⟨new', h1, h2, h3, h4, h5⟩ := createStreamsAll_append m hm rest ({ st with streams := st.streams ++ instantiateRows shard.dbName (nextStreamId st.streams shard.dbName) ((assocGet m shard.name).getD []) })
    refine ⟨instantiateRows shard.dbName (nextStreamId st.streams shard.dbName) ((assocGet m shard.name).getD []) ++ new', ?_, ?_, h3, h4, h5⟩
    · rw [h1, List.append_assoc]
    · intro r hr
      rcases List.mem_append.mp hr with h6 | h6
      · obtain ⟨p, hp, hps⟩ := instantiateRows_state shard.dbName _ _ r h6
        cases hga : assocGet m shard.name with
        | none => rw [hga] at hp; cases hp
        | some rows =>
          rw [hga] at hp
          rw [hps]
          exact hm (shard.name, rows) (assocGet_mem m shard.name rows hga) p hp
      · exact h2 r h6

/-- A successful `prepareMaterializerStreams` only appends `Stopped` rows to
the replication-control table (and schema changes to its log): routing rules
and VSchemas are untouched. -/
theorem prepareMaterializerStreams_ok (env : Env) (st : St) (ms : MatSettings)
    (st2 : St) (mz : Materializer)
    (h : prepareMaterializerStreams env st ms = (st2, .ok mz)) :
    (∃ new, st2.streams = st.streams ++ new ∧ ∀ r ∈ new, r.state = "Stopped") ∧
    st2.routingRules = st.routingRules ∧
    st2.savedVSchemas = st.savedVSchemas := by
  rw [prepareMaterializerStreams] at h
  split at h
  · simp at h
  case h_2 u hval =>
    split at h
    · simp at h
    case h_2 mz' hmz' =>
      split at h
      case h_1 stD e hdep => simp at h
      case h_2 stD u2 hdep =>
        split at h
        · simp at h
        case h_2 m hm =>
          have hdepf := deploySchemaAll_frame env mz' mz'.targetShards st
          rw [hdep] at hdepf
          obtain ⟨hds, hdr, hdv⟩ := hdepf
          obtain ⟨new, hc1, hc2, hc3, hc4, _⟩ :=
            createStreamsAll_append m (genInsertsMap_stopped mz' mz'.targetShards m hm)
              mz'.targetShards stD
          rw [Prod.mk.injEq] at h
          obtain ⟨hst2, hmzeq⟩ := h
          cases hmzeq
          refine ⟨⟨new, ?_, hc2⟩, ?_, ?_⟩
          · rw [← hst2, hc1, hds]
          · rw [← hst2, hc3, hdr]
          · rw [← hst2, hc4, hdv]

/-! # Claim C1 — the migration-journal idempotency check

The claim fails on two counts.  First, "creates no new StreamRecords" is
false: the MigrationID is computed from the ids of the streams the very same
invocation has just inserted (via `prepareMaterializerStreams` →
`collectTargetStreams`), so the journal check necessarily runs *after*
stream creation, and the failing invocation leaves the freshly created
records behind, in state `Stopped`.  Second, "if any source shard's primary
reports an existing entry" is false: the per-shard checks overwrite a shared
`exists` variable, so the returned flag is the last writer's result (the
last source shard's, under this file's sequential rendering of the fan-out)
— with two source shards where only the first holds the entry, the
invocation succeeds. -/

/-- **C1** (amended): for a MoveTables invocation with no external source
cluster, when the journal check's returned flag is set — the per-shard
checks overwrite a shared variable, so the flag is the last-checked source
shard's result, not a disjunction over the shards — the whole operation
fails with an IdempotencyError naming every source primary that holds the
entry, and none of the created StreamRecords are started; but the invocation
has already created its new StreamRecords (in state Stopped) before the
check, since the MigrationID is derived from their ids. -/
theorem C1_idempotency_error_after_streams_created (env : Env) (st : St)
    (inp : MoveTablesInput) (st1 st2 : St) (mz : Materializer)
    (hext : inp.externalCluster = "")
    (hstage1 : moveTablesStage1 st inp = .ok st1)
    (hprep : prepareMaterializerStreams env st1 (moveTablesSettings inp) =
      (st2, .ok mz))
    (hprobe : inp.sourceTimeZone ≠ "" → env.tzProbeOk = true)
    (hjournal : (checkIfPreviousJournalExists env mz
      (getMigrationID inp.targetKeyspace (collectTargetStreams st2 mz))).1 = true) :
    moveTables env st inp = (st2, .error (journalMsg
      (getMigrationID inp.targetKeyspace (collectTargetStreams st2 mz))
      (checkIfPreviousJournalExists env mz
        (getMigrationID inp.targetKeyspace (collectTargetStreams st2 mz))).2
      inp.workflow inp.targetKeyspace)) ∧
    ∃ newRows, st2.streams = st.streams ++ newRows ∧
      ∀ r ∈ newRows, r.state = "Stopped" := by
  constructor
  · rw [moveTables, hstage1]
    dsimp only
    rw [hprep]
    dsimp only
    rw [if_neg (fun hc => hc.2 (hprobe hc.1))]
    rw [if_pos hext]
    rw [if_pos hjournal]
  · obtain ⟨⟨new, h1, h2⟩, _, _⟩ :=
      prepareMaterializerStreams_ok env st1 (moveTablesSettings inp) st2 mz hprep
    obtain ⟨hs, _⟩ := moveTablesStage1_frame st inp st1 hstage1
    exact ⟨new, by rw [h1, hs], h2⟩

set_option maxRecDepth 1000000 in
/-- **C1** (counterexample): (i) the concrete single-source invocation
`c1inp` hits the journal check and fails with the IdempotencyError naming
tablet `src-0` — yet it has created a new StreamRecord (the claim says it
creates none): the stream table grows from empty to one `Stopped` row.
(ii) With two source shards where only the *first* primary (`src-a`) holds a
journal entry for the computed MigrationID, the shared flag is overwritten
by the second shard's check and the whole invocation succeeds — the claim
says an entry on any source shard fails the operation. -/
theorem C1_creates_streams_despite_journal_error :
    (c1st.streams = [] ∧
     (moveTables c1env c1st c1inp).2 =
       .error (journalMsg (getMigrationID "tks" ["0:1"]) ["src-0"] "wf" "tks") ∧
     (moveTables c1env c1st c1inp).1.streams = [c1row]) ∧
    (((assocGet c1benv.tabletJournals c1srcA.primaryAlias).getD []).contains
       (getMigrationID "tks" ["0:1", "0:2"]) = true ∧
     prepareMaterializerStreams c1benv c1st1 (moveTablesSettings c1inp) =
       (c1bst2, .ok c1bmz) ∧
     collectTargetStreams c1bst2 c1bmz = ["0:1", "0:2"] ∧
     (checkIfPreviousJournalExists c1benv c1bmz
       (getMigrationID "tks" ["0:1", "0:2"])).1 = false ∧
     (moveTables c1benv c1st c1inp).2 = .ok ()) :=
  ⟨⟨rfl, by decide, by decide⟩,
   ⟨by decide, by decide, by decide, by decide, by decide⟩⟩

set_option maxRecDepth 1000000 in
/-- Witness for C1: the amended theorem applied to the concrete scenario. -/
theorem C1_idempotency_error_after_streams_created_witness :
    c1inp.externalCluster = "" ∧
    moveTablesStage1 c1st c1inp = .ok c1st1 ∧
    prepareMaterializerStreams c1env c1st1 (moveTablesSettings c1inp) =
      (c1st2, .ok c1mz) ∧
    (checkIfPreviousJournalExists c1env c1mz
      (getMigrationID c1inp.targetKeyspace (collectTargetStreams c1st2 c1mz))).1 =
      true ∧
    (moveTables c1env c1st c1inp = (c1st2, .error (journalMsg
      (getMigrationID c1inp.targetKeyspace (collectTargetStreams c1st2 c1mz))
      (checkIfPreviousJournalExists c1env c1mz
        (getMigrationID c1inp.targetKeyspace (collectTargetStreams c1st2 c1mz))).2
      c1inp.workflow c1inp.targetKeyspace)) ∧
    ∃ newRows, c1st2.streams = c1st.streams ++ newRows ∧
      ∀ r ∈ newRows, r.state = "Stopped") :=
  ⟨rfl, by decide, by decide, by decide,
   C1_idempotency_error_after_streams_created c1env c1st c1inp c1st1 c1st2 c1mz
     rfl (by decide) (by decide) (fun _ => rfl) (by decide)⟩

/-! # Claim C5 — workflow-name uniqueness check vs. mutations

The uniqueness check is the first step of `prepareMaterializerStreams`, so it
precedes schema deployment and stream creation in all three operations, and
plain `Materialize` mutates nothing before it.  But it does *not* precede
every mutation: `MoveTables` saves the routing rules and the target VSchema,
and `CreateLookupVindex` saves the target VSchema, before calling
`prepareMaterializerStreams`. -/

/-- A failing uniqueness check aborts `prepareMaterializerStreams` with the
state untouched. -/
theorem prepareMaterializerStreams_validate_error (env : Env) (st : St)
    (ms : MatSettings) (e : String)
    (hval : validateNewWorkflow env st ms.targetKeyspace ms.workflow = .error e) :
    prepareMaterializerStreams env st ms = (st, .error e) := by
  rw [prepareMaterializerStreams, hval]

/-- **C5** (amended): in all three workflow-creating operations a duplicate
workflow name fails the operation before any schema deployment or
StreamRecord creation; Materialize has mutated nothing at all when the check
fails, but MoveTables has already saved the routing rules and the target
VSchema, and CreateLookupVindex has already saved the target VSchema. -/
theorem C5_uniqueness_check_position :
    (∀ (env : Env) (st : St) (ms : MatSettings) (e : String),
      validateNewWorkflow env st ms.targetKeyspace ms.workflow = .error e →
      materializeOp env st ms = (st, .error e)) ∧
    (∀ (env : Env) (st : St) (inp : MoveTablesInput) (st1 : St) (e : String),
      moveTablesStage1 st inp = .ok st1 →
      validateNewWorkflow env st1 inp.targetKeyspace inp.workflow = .error e →
      moveTables env st inp = (st1, .error e) ∧
      st1.streams = st.streams ∧
      st1.appliedSchemaChanges = st.appliedSchemaChanges) ∧
    (∀ (env : Env) (st : St) (ks : String) (specs : VSchema)
       (cell tabletTypes : String) (cont : Bool) (ms0 : MatSettings)
       (svs tvs : VSchema) (e : String),
      prepareCreateLookup env st ks specs cont = .ok (ms0, svs, tvs) →
      validateNewWorkflow env
        { st with savedVSchemas := assocSet st.savedVSchemas ms0.targetKeyspace tvs }
        ms0.targetKeyspace ms0.workflow = .error e →
      createLookupVindex env st ks specs cell tabletTypes cont =
        ({ st with savedVSchemas :=
            assocSet st.savedVSchemas ms0.targetKeyspace tvs }, .error e) ∧
      ({ st with savedVSchemas :=
          assocSet st.savedVSchemas ms0.targetKeyspace tvs } : St).streams =
        st.streams ∧
      ({ st with savedVSchemas :=
          assocSet st.savedVSchemas ms0.targetKeyspace tvs } : St).appliedSchemaChanges =
        st.appliedSchemaChanges) := by
  refine ⟨?_, ?_, ?_⟩
  · intro env st ms e hval
    rw [materializeOp, prepareMaterializerStreams_validate_error env st ms e hval]
  · intro env st inp st1 e hstage1 hval
    refine ⟨?_, (moveTablesStage1_frame st inp st1 hstage1).1,
      (moveTablesStage1_frame st inp st1 hstage1).2⟩
    rw [moveTables, hstage1]
    dsimp only
    rw [prepareMaterializerStreams_validate_error env st1 (moveTablesSettings inp)
      e hval]
  · intro env st ks specs cell tabletTypes cont ms0 svs tvs e hprep hval
    refine ⟨?_, rfl, rfl⟩
    rw [createLookupVindex, hprep]
    dsimp only
    rw [materializeOp, prepareMaterializerStreams_validate_error env _
      { ms0 with cell := cell, tabletTypes := tabletTypes } e hval]

set_option maxRecDepth 1000000 in
/-- **C5** (counterexample): re-invoking MoveTables while workflow `wf`
already exists in the target keyspace fails the uniqueness check — but the
routing rules (and the target VSchema) have already been changed when the
check fails, contradicting "no routing rule … state has been changed". -/
theorem C5_mutation_before_uniqueness_check :
    c5st.routingRules = [] ∧
    (moveTables c1env c5st c1inp).2 =
      .error "workflow wf already exists in keyspace tks" ∧
    (moveTables c1env c5st c1inp).1.routingRules ≠ [] ∧
    (moveTables c1env c5st c1inp).1.savedVSchemas ≠ c5st.savedVSchemas :=
  ⟨rfl, by decide, by decide, by decide⟩

set_option maxRecDepth 1000000 in
/-- Witness for C5: the MoveTables part of the amended theorem applied to the
concrete scenario. -/
theorem C5_uniqueness_check_position_witness :
    moveTablesStage1 c5st c1inp = .ok c5st1 ∧
    validateNewWorkflow c1env c5st1 c1inp.targetKeyspace c1inp.workflow =
      .error "workflow wf already exists in keyspace tks" ∧
    (moveTables c1env c5st c1inp =
      (c5st1, .error "workflow wf already exists in keyspace tks") ∧
     c5st1.streams = c5st.streams ∧
     c5st1.appliedSchemaChanges = c5st.appliedSchemaChanges) :=
  ⟨by decide, by decide,
   C5_uniqueness_check_position.2.1 c1env c5st c1inp c5st1
     "workflow wf already exists in keyspace tks" (by decide) (by decide)⟩

/-! # CreateLookupVindex lemmas (shared by C7 and C10) -/

/-- A failing preparation aborts `CreateLookupVindex` with the state
untouched. -/
theorem createLookupVindex_prep_error (env : Env) (st : St) (ks : String)
    (specs : VSchema) (cell tabletTypes : String) (cont : Bool) (e : String)
    (h : prepareCreateLookup env st ks specs cont = .error e) :
    createLookupVindex env st ks specs cell tabletTypes cont = (st, .error e) := by
  rw [createLookupVindex, h]

/-- Stage 6 names the backfill workflow after the backing table and targets
its keyspace, whatever else it computes. -/
theorem prepCL6_workflow {keyspace : String} {cont : Bool} {n : String}
    {v : VindexSpec} {cols : List String} {K T sT : String}
    {cv : ColumnVindexSpec} {svs0 tvs0 : VSchema} {svt : TableSpec}
    {ddl : String} {q : Select} {tvto : Option String}
    {ms : MatSettings} {svs tvs : VSchema}
    (h : prepCL6 keyspace cont n v cols K T sT cv svs0 tvs0 svt ddl q tvto =
      .ok (ms, svs, tvs)) :
    ms.workflow = T ++ "_vdx" ∧ ms.targetKeyspace = K := by
  rw [prepCL6.eq_def] at h
  repeat' first
    | split at h
    | (cases h; done)
  all_goals
    dsimp only at h
    simp only [Except.ok.injEq, Prod.mk.injEq] at h
    rw [← h.1]
    exact ⟨rfl, rfl⟩

/-- Stage 5 only forwards the workflow naming of stage 6. -/
theorem prepCL5_workflow {env : Env} {keyspace : String} {cont : Bool}
    {n : String} {v : VindexSpec} {cols : List String} {toCol K T sT : String}
    {cv : ColumnVindexSpec} {svcols : List String} {svs0 tvs0 : VSchema}
    {svt : TableSpec} {d0 : TableDef} {ms : MatSettings} {svs tvs : VSchema}
    (h : prepCL5 env keyspace cont n v cols toCol K T sT cv svcols svs0 tvs0
      svt d0 = .ok (ms, svs, tvs)) :
    ms.workflow = T ++ "_vdx" ∧ ms.targetKeyspace = K := by
  rw [prepCL5] at h
  dsimp only at h
  repeat' first
    | split at h
    | (cases h; done)
  all_goals exact prepCL6_workflow h

/-- Stage 4 only forwards the workflow naming of stage 5. -/
theorem prepCL4_workflow {env : Env} {keyspace : String} {cont : Bool}
    {n : String} {v : VindexSpec} {cols : List String} {toCol K T sT : String}
    {cv : ColumnVindexSpec} {svcols : List String} {svs0 tvs0 : VSchema}
    {ms : MatSettings} {svs tvs : VSchema}
    (h : prepCL4 env keyspace cont n v cols toCol K T sT cv svcols svs0 tvs0 =
      .ok (ms, svs, tvs)) :
    ms.workflow = T ++ "_vdx" ∧ ms.targetKeyspace = K := by
  rw [prepCL4] at h
  repeat' first
    | split at h
    | (cases h; done)
  all_goals exact prepCL5_workflow h

/-- Stage 3 only forwards the workflow naming of stage 4. -/
theorem prepCL3_workflow {env : Env} {st : St} {keyspace : String}
    {cont : Bool} {n : String} {v : VindexSpec} {cols : List String}
    {toCol K T sT : String} {sTab : TableSpec}
    {ms : MatSettings} {svs tvs : VSchema}
    (h : prepCL3 env st keyspace cont n v cols toCol K T sT sTab =
      .ok (ms, svs, tvs)) :
    ms.workflow = T ++ "_vdx" ∧ ms.targetKeyspace = K := by
  rw [prepCL3] at h
  repeat' first
    | split at h
    | (cases h; done)
  all_goals exact prepCL4_workflow h

/-- Stage 2: once the vindex's backing-table parameter is known to parse as
`K.T` with non-empty `K`, a successful preparation names the workflow
`T ++ "_vdx"` and targets keyspace `K`. -/
theorem prepCL2_workflow {env : Env} {st : St} {ks : String} {specs : VSchema}
    {cont : Bool} {n : String} {v : VindexSpec} {ms : MatSettings}
    {svs tvs : VSchema} {K T : String}
    (h : prepCL2 env st ks specs cont n v = .ok (ms, svs, tvs))
    (hKT : parseTable (paramsGet v.params "table") = some (K, T))
    (hK : K ≠ "") :
    ms.workflow = T ++ "_vdx" ∧ ms.targetKeyspace = K := by
  rw [prepCL2] at h
  rw [hKT] at h
  dsimp only at h
  rw [if_neg hK] at h
  repeat' first
    | split at h
    | (cases h; done)
  all_goals exact prepCL3_workflow h

/-- When the single vindex's backing-table parameter parses as `K.T` with a
non-empty keyspace, a successful `prepareCreateLookup` names the backfill
workflow exactly `T ++ "_vdx"` and targets keyspace `K`. -/
theorem prepareCreateLookup_workflow {env : Env} {st : St} {ks : String}
    {specs : VSchema} {cont : Bool} {ms : MatSettings} {svs tvs : VSchema}
    {n : String} {v : VindexSpec} {K T : String}
    (hv : specs.vindexes = [(n, v)])
    (hKT : parseTable (paramsGet v.params "table") = some (K, T))
    (hK : K ≠ "")
    (h : prepareCreateLookup env st ks specs cont = .ok (ms, svs, tvs)) :
    ms.workflow = T ++ "_vdx" ∧ ms.targetKeyspace = K := by
  rw [prepareCreateLookup, hv] at h
  dsimp only at h
  exact prepCL2_workflow h hKT hK

/-- The resolution stage of `ExternalizeVindex` derives the workflow name
`T ++ "_vdx"` from the vindex's backing table `K.T`, and targets keyspace
`K`. -/
theorem externalizeResolve_workflow {env : Env} {st : St} {q : String}
    {res : ExtResolved} {K T : String}
    (h : externalizeResolve env st q = .ok res)
    (hKT : parseTable (paramsGet res.vindex.params "table") = some (K, T)) :
    res.workflow = T ++ "_vdx" ∧ res.targetKeyspace = K := by
  rw [externalizeResolve] at h
  repeat' first
    | split at h
    | (cases h; done)
  rename_i tk tt heqp hne
  simp only [Except.ok.injEq] at h
  subst h
  dsimp only at hKT ⊢
  rw [heqp] at hKT
  simp only [Option.some.injEq, Prod.mk.injEq] at hKT
  exact ⟨by rw [hKT.2], hKT.1⟩

/-! # Claim C7 — validation failures of CreateLookupVindex -/

/-- Necessary conditions for a successful preparation: the specs name exactly
one vindex of the lookup family whose `from`-column count matches its
uniqueness, and exactly one table whose single column-vindex binding names
that vindex. -/
theorem prepCL_ok_necessary {env : Env} {st : St} {ks : String}
    {specs : VSchema} {cont : Bool} {r : MatSettings × VSchema × VSchema}
    (h : prepareCreateLookup env st ks specs cont = .ok r) :
    ∃ n v, specs.vindexes = [(n, v)] ∧
      goContains v.typ "lookup" = true ∧
      (goContains v.typ "unique" = true →
        (goSplit (paramsGet v.params "from") ',').length = 1) ∧
      (goContains v.typ "unique" = false →
        2 ≤ (goSplit (paramsGet v.params "from") ',').length) ∧
      ∃ t ti, specs.tables = [(t, ti)] ∧
        ∃ cv, ti.columnVindexes = [cv] ∧ cv.name = n := by
  rw [prepareCreateLookup] at h
  split at h <;> try (cases h; done)
  rename_i n v hv
  rw [prepCL2] at h
  split at h <;> try (cases h; done)
  rename_i hlk
  split at h <;> try (cases h; done)
  rename_i K T hKT
  split at h <;> try (cases h; done)
  rename_i hK
  dsimp only at h
  split at h <;> try (cases h; done)
  rename_i hu1
  split at h <;> try (cases h; done)
  rename_i hu2
  split at h <;> try (cases h; done)
  split at h <;> try (cases h; done)
  rename_i t ti ht
  rw [prepCL3] at h
  split at h <;> try (cases h; done)
  rename_i cv hcv
  split at h <;> try (cases h; done)
  rename_i hname
  refine ⟨n, v, hv, not_not.mp hlk, ?_, ?_, t, ti, ht, cv, hcv, not_not.mp hname⟩
  · intro hu
    by_contra hne
    exact hu1 ⟨hu, hne⟩
  · intro huf
    by_contra hlt
    exact hu2 ⟨by simp [huf], by omega⟩

/-- When no preparation result is possible, `CreateLookupVindex` returns the
state unchanged with the preparation's error. -/
theorem createLookupVindex_not_ok {env : Env} {st : St} {ks : String}
    {specs : VSchema} {cont : Bool} (cell tabletTypes : String)
    (hne : ∀ r, prepareCreateLookup env st ks specs cont ≠ .ok r) :
    ∃ e, createLookupVindex env st ks specs cell tabletTypes cont =
      (st, .error e) := by
  cases heq : prepareCreateLookup env st ks specs cont with
  | error e =>
    exact ⟨e,
      createLookupVindex_prep_error env st ks specs cell tabletTypes cont e heq⟩
  | ok r => exact absurd heq (hne r)

/-- **C7**: `prepareCreateLookup` (the CreateLookupVindex validation step)
fails — so `CreateLookupVindex` returns an error with the state, in
particular every saved VSchema, untouched — whenever the input spec does not
contain exactly one vindex, or does not contain exactly one table, or the
vindex type is not in the lookup family, or a unique vindex has other than
exactly one `from` column, or a non-unique vindex has fewer than two `from`
columns, or the table's single column-vindex binding does not name the
specified vindex. -/
theorem C7_validation_failures :
    ∀ (env : Env) (st : St) (ks : String) (specs : VSchema)
      (cell tabletTypes : String) (cont : Bool),
    (specs.vindexes.length ≠ 1 →
      ∃ e, createLookupVindex env st ks specs cell tabletTypes cont =
        (st, .error e)) ∧
    (specs.tables.length ≠ 1 →
      ∃ e, createLookupVindex env st ks specs cell tabletTypes cont =
        (st, .error e)) ∧
    (∀ n v, specs.vindexes = [(n, v)] →
      goContains v.typ "lookup" = false →
      ∃ e, createLookupVindex env st ks specs cell tabletTypes cont =
        (st, .error e)) ∧
    (∀ n v, specs.vindexes = [(n, v)] →
      goContains v.typ "unique" = true →
      (goSplit (paramsGet v.params "from") ',').length ≠ 1 →
      ∃ e, createLookupVindex env st ks specs cell tabletTypes cont =
        (st, .error e)) ∧
    (∀ n v, specs.vindexes = [(n, v)] →
      goContains v.typ "unique" = false →
      (goSplit (paramsGet v.params "from") ',').length < 2 →
      ∃ e, createLookupVindex env st ks specs cell tabletTypes cont =
        (st, .error e)) ∧
    (∀ n v t ti cv, specs.vindexes = [(n, v)] → specs.tables = [(t, ti)] →
      ti.columnVindexes = [cv] → cv.name ≠ n →
      ∃ e, createLookupVindex env st ks specs cell tabletTypes cont =
        (st, .error e)) := by
  intro env st ks specs cell tabletTypes cont
  refine ⟨?_, ?_, ?_, ?_, ?_, ?_⟩
  · intro hlen
    refine createLookupVindex_not_ok cell tabletTypes ?_
    intro r hr
    obtain ⟨n, v, hv, _⟩ := prepCL_ok_necessary hr
    exact hlen (by rw [hv]; rfl)
  · intro hlen
    refine createLookupVindex_not_ok cell tabletTypes ?_
    intro r hr
    obtain ⟨n, v, hv, hlk, hu1, hu2, t, ti, ht, _⟩ := prepCL_ok_necessary hr
    exact hlen (by rw [ht]; rfl)
  · intro n v hv hnl
    refine createLookupVindex_not_ok cell tabletTypes ?_
    intro r hr
    obtain ⟨n', v', hv', hlk, _⟩ := prepCL_ok_necessary hr
    rw [hv] at hv'
    simp only [List.cons.injEq, Prod.mk.injEq, and_true] at hv'
    rw [← hv'.2, hnl] at hlk
    exact Bool.noConfusion hlk
  · intro n v hv hu hne
    refine createLookupVindex_not_ok cell tabletTypes ?_
    intro r hr
    obtain ⟨n', v', hv', hlk, hu1, _⟩ := prepCL_ok_necessary hr
    rw [hv] at hv'
    simp only [List.cons.injEq, Prod.mk.injEq, and_true] at hv'
    rw [← hv'.2] at hu1
    exact hne (hu1 hu)
  · intro n v hv huf hlt
    refine createLookupVindex_not_ok cell tabletTypes ?_
    intro r hr
    obtain ⟨n', v', hv', hlk, hu1, hu2, _⟩ := prepCL_ok_necessary hr
    rw [hv] at hv'
    simp only [List.cons.injEq, Prod.mk.injEq, and_true] at hv'
    rw [← hv'.2] at hu2
    exact absurd (hu2 huf) (by omega)
  · intro n v t ti cv hv ht hcv hne
    refine createLookupVindex_not_ok cell tabletTypes ?_
    intro r hr
    obtain ⟨n', v', hv', _, _, _, t', ti', ht', cv', hcv', hnm⟩ :=
      prepCL_ok_necessary hr
    rw [hv] at hv'
    rw [ht] at ht'
    simp only [List.cons.injEq, Prod.mk.injEq, and_true] at hv' ht'
    rw [← ht'.2] at hcv'
    rw [hcv] at hcv'
    simp only [List.cons.injEq, and_true] at hcv'
    rw [← hv'.1] at hnm
    rw [← hcv'] at hnm
    exact hne hnm

set_option maxRecDepth 1000000 in
/-- Witness for C7: each of the six validation failures on a concrete spec. -/
theorem C7_validation_failures_witness :
    (c7specs1.vindexes.length ≠ 1 ∧
     ∃ e, createLookupVindex c6env (St.mk [] [] [] []) "sales" c7specs1 "" "" false =
       (St.mk [] [] [] [], .error e)) ∧
    (c7specs2.tables.length ≠ 1 ∧
     ∃ e, createLookupVindex c6env (St.mk [] [] [] []) "sales" c7specs2 "" "" false =
       (St.mk [] [] [] [], .error e)) ∧
    (c7specs3.vindexes = [("h", c7vindex3)] ∧
     goContains c7vindex3.typ "lookup" = false ∧
     ∃ e, createLookupVindex c6env (St.mk [] [] [] []) "sales" c7specs3 "" "" false =
       (St.mk [] [] [] [], .error e)) ∧
    (c7specs4.vindexes = [("lkp", c7vindex4)] ∧
     goContains c7vindex4.typ "unique" = true ∧
     (goSplit (paramsGet c7vindex4.params "from") ',').length ≠ 1 ∧
     ∃ e, createLookupVindex c6env (St.mk [] [] [] []) "sales" c7specs4 "" "" false =
       (St.mk [] [] [] [], .error e)) ∧
    (c7specs5.vindexes = [("lkp", c7vindex5)] ∧
     goContains c7vindex5.typ "unique" = false ∧
     (goSplit (paramsGet c7vindex5.params "from") ',').length < 2 ∧
     ∃ e, createLookupVindex c6env (St.mk [] [] [] []) "sales" c7specs5 "" "" false =
       (St.mk [] [] [] [], .error e)) ∧
    (c7specs6.vindexes = [("lkpvdx", c7vindex6)] ∧
     c7specs6.tables = [("users", ⟨"", [⟨"other", "email", []⟩], none⟩)] ∧
     (⟨"other", "email", []⟩ : ColumnVindexSpec).name ≠ "lkpvdx" ∧
     ∃ e, createLookupVindex c6env (St.mk [] [] [] []) "sales" c7specs6 "" "" false =
       (St.mk [] [] [] [], .error e)) :=
  ⟨⟨by decide,
    (C7_validation_failures c6env (St.mk [] [] [] []) "sales" c7specs1 "" "" false).1
      (by decide)⟩,
   ⟨by decide,
    (C7_validation_failures c6env (St.mk [] [] [] []) "sales" c7specs2 "" "" false).2.1
      (by decide)⟩,
   ⟨by decide, by decide,
    (C7_validation_failures c6env (St.mk [] [] [] []) "sales" c7specs3 "" "" false).2.2.1
      "h" c7vindex3 (by decide) (by decide)⟩,
   ⟨by decide, by decide, by decide,
    (C7_validation_failures c6env (St.mk [] [] [] []) "sales" c7specs4 "" "" false).2.2.2.1
      "lkp" c7vindex4 (by decide) (by decide) (by decide)⟩,
   ⟨by decide, by decide, by decide,
    (C7_validation_failures c6env (St.mk [] [] [] []) "sales" c7specs5 "" "" false).2.2.2.2.1
      "lkp" c7vindex5 (by decide) (by decide) (by decide)⟩,
   ⟨by decide, by decide, by decide,
    (C7_validation_failures c6env (St.mk [] [] [] []) "sales" c7specs6 "" "" false).2.2.2.2.2
      "lkpvdx" c7vindex6 "users" ⟨"", [⟨"other", "email", []⟩], none⟩
      ⟨"other", "email", []⟩ (by decide) (by decide) (by decide) (by decide)⟩⟩

/-! # Claim C10 — workflow-name agreement between CreateLookupVindex and
ExternalizeVindex -/

/-- **C10**: for every vindex whose backing-table parameter parses as
keyspace `K` and table `T` (with `K` non-empty, as both operations require),
a successful CreateLookupVindex preparation names the backfill workflow
exactly `T ++ "_vdx"` and targets keyspace `K`, and a successful
ExternalizeVindex resolution derives exactly the same workflow name
`T ++ "_vdx"` (and the same target keyspace `K`) for the streams it inspects
and deletes — the two derivations agree for all inputs. -/
theorem C10_workflow_name_agreement :
    (∀ (env : Env) (st : St) (ks : String) (specs : VSchema) (cont : Bool)
       (ms : MatSettings) (svs tvs : VSchema) (n : String) (v : VindexSpec)
       (K T : String),
      specs.vindexes = [(n, v)] →
      parseTable (paramsGet v.params "table") = some (K, T) →
      K ≠ "" →
      prepareCreateLookup env st ks specs cont = .ok (ms, svs, tvs) →
      ms.workflow = T ++ "_vdx" ∧ ms.targetKeyspace = K) ∧
    (∀ (env : Env) (st : St) (q : String) (res : ExtResolved) (K T : String),
      externalizeResolve env st q = .ok res →
      parseTable (paramsGet res.vindex.params "table") = some (K, T) →
      res.workflow = T ++ "_vdx" ∧ res.targetKeyspace = K) := by
  refine ⟨?_, ?_⟩
  · intro env st ks specs cont ms svs tvs n v K T hv hKT hK h
    exact prepareCreateLookup_workflow hv hKT hK h
  · intro env st q res K T h hKT
    exact externalizeResolve_workflow h hKT

set_option maxRecDepth 1000000 in
/-- Witness for C10: a successful concrete preparation and a successful
concrete resolution, both naming the workflow after the backing table. -/
theorem C10_workflow_name_agreement_witness :
    (c10specs.vindexes = [("lkpvdx", c10vindex)] ∧
     parseTable (paramsGet c10vindex.params "table") =
       some ("lookupks", "email_lookup") ∧
     ("lookupks" : String) ≠ "" ∧
     prepareCreateLookup c10env c10st "sales" c10specs false =
       .ok (c10ms, c10svs, c10tvs) ∧
     (c10ms.workflow = "email_lookup" ++ "_vdx" ∧
      c10ms.targetKeyspace = "lookupks")) ∧
    (externalizeResolve c6env c6st "src.lkp" = .ok c6res ∧
     parseTable (paramsGet c6res.vindex.params "table") =
       some ("tks", "lkp_table") ∧
     (c6res.workflow = "lkp_table" ++ "_vdx" ∧
      c6res.targetKeyspace = "tks")) :=
  ⟨⟨by decide, by decide, by decide, by decide,
    C10_workflow_name_agreement.1 c10env c10st "sales" c10specs false
      c10ms c10svs c10tvs "lkpvdx" c10vindex "lookupks" "email_lookup"
      (by decide) (by decide) (by decide) (by decide)⟩,
   ⟨by decide, by decide,
    C10_workflow_name_agreement.2 c6env c6st "src.lkp" c6res "tks" "lkp_table"
      (by decide) (by decide)⟩⟩

end Vitess
